import Mathlib

/-
Verification of the spatial layout and validation engine of renova_ai.

Shallow embedding conventions:
* Python floats are modelled as exact rationals (ℚ); `math.sqrt` is never
  materialised where the code only compares a square root against a bound
  (we compare squares instead, which is equivalent for non-negative
  arguments), and where the code reports a square-root value we either keep
  the squared value alongside it or use `Real.sqrt` of the rational.
* Python dicts with fixed keys become structures; `dict.get(k, default)`
  becomes a field whose default the caller materialises, or `Option` with
  `getD` where a claim depends on the missing-key behaviour.
* `numpy.arange(start, stop, step)` is the list `start + k * step` for
  `k < ⌈(stop - start)/step⌉`, the exact-arithmetic reading of numpy's
  half-open float range.
* Exceptions that the source catches and converts to a default value are
  modelled by the explicit branch that produces that default; code paths
  that cannot raise are total functions.
-/

set_option maxRecDepth 8000

namespace Renova

/-! ## Data model (floor_plan_generator.py) -/

/-- A furniture requirement entry: the dict
`type/width/depth/priority/min_room_width` of `_generate_furniture_layout`,
with the source defaults `priority = 999` and `min_room_width = 0`
materialised by the caller. -/
structure FurnitureSpec where
  ftype : String
  fwidth : ℚ
  fdepth : ℚ
  priority : ℚ
  minRoomWidth : ℚ
deriving DecidableEq

/-- A door dict: `position.x`, `position.y`, `width`. -/
structure Door where
  dx : ℚ
  dy : ℚ
  dwidth : ℚ
deriving DecidableEq

/-- A window dict (unused by the placement scorer, kept for fidelity). -/
structure Window where
  wx : ℚ
  wy : ℚ
  wwidth : ℚ
deriving DecidableEq

/-- A candidate position produced by `_find_optimal_furniture_position`. -/
structure FurniturePosition where
  x : ℚ
  y : ℚ
  rot : ℕ
deriving DecidableEq

/-- A placed furniture item: `type`, `dimensions.width/depth`,
`position.x/y`, `rotation`. -/
structure PlacedFurniture where
  ftype : String
  fwidth : ℚ
  fdepth : ℚ
  px : ℚ
  py : ℚ
  rot : ℕ
deriving DecidableEq

/-- Rotation swaps effective width/depth when rotation is 90
(`if rotation == 90: fw, fd = depth, width`). -/
def effDims (w d : ℚ) (rot : ℕ) : ℚ × ℚ :=
  if rot = 90 then (d, w) else (w, d)

/-- Effective width of a placed item. -/
def effW (f : PlacedFurniture) : ℚ := (effDims f.fwidth f.fdepth f.rot).1

/-- Effective depth of a placed item. -/
def effD (f : PlacedFurniture) : ℚ := (effDims f.fwidth f.fdepth f.rot).2

/-! ## LayoutClassifier (spatial_layout_engine.py, `_determine_layout_type`)

`LAYOUT_THRESHOLDS`: galley_max_width = 3.0, island_min_width = 3.7,
u_shape_min_width = 3.0, l_shape_min_width = 2.4. -/

/-- `_determine_layout_type(width, length)`: the if-chain of the source,
in source order.  `length` is received but never read. -/
def determineLayoutType (width _length : ℚ) : String :=
  if width ≤ 3 then "galley"
  else if width < 24/10 then "single_wall"
  else if 24/10 ≤ width ∧ width < 3 then "l_shaped"
  else if 3 ≤ width ∧ width < 37/10 then "u_shaped"
  else if 37/10 ≤ width then "island"
  else "galley"

/-- Reference classifier written from the specification text: galley for
width ≤ 3.0, u_shaped for 3.0 < width < 3.7, island for width ≥ 3.7. -/
def layoutTypeSpecRef (width : ℚ) : String :=
  if width ≤ 3 then "galley"
  else if width < 37/10 then "u_shaped"
  else "island"

/-! ## Minimum rectangle distance (`_calculate_furniture_distance`)

The source computes `sqrt(dx^2 + dy^2)`.  We keep the squared distance in
ℚ; every comparison the validator makes against `0.6` is equivalent to a
comparison of the square against `0.36`. -/

/-- The horizontal gap `dx = max(0, max(x1 - (x2 + w2), x2 - (x1 + w1)))`
between effective footprints. -/
def gapX (f1 f2 : PlacedFurniture) : ℚ :=
  max 0 (max (f1.px - (f2.px + effW f2)) (f2.px - (f1.px + effW f1)))

/-- The vertical gap `dy` between effective footprints. -/
def gapY (f1 f2 : PlacedFurniture) : ℚ :=
  max 0 (max (f1.py - (f2.py + effD f2)) (f2.py - (f1.py + effD f1)))

/-- Squared minimum rectangle-to-rectangle distance `dx^2 + dy^2`
(the source returns `sqrt` of this). -/
def furnitureDistSq (f1 f2 : PlacedFurniture) : ℚ :=
  gapX f1 f2 ^ 2 + gapY f1 f2 ^ 2

/-- The distance value itself, `sqrt(dx^2 + dy^2)`. -/
noncomputable def furnitureDistance (f1 f2 : PlacedFurniture) : ℝ :=
  Real.sqrt (furnitureDistSq f1 f2)

/-! ## SpatialConstraintValidator (floor_plan_generator.py) -/

/-- A default placed-furniture value, used only for in-range list
indexing. -/
instance : Inhabited PlacedFurniture := ⟨⟨"", 0, 0, 0, 0, 0⟩⟩

/-- `round(10 * sqrt s)` computed exactly on rationals: the value printed
by the `%.1f` formatting of `sqrt s`, in tenths.  `n = ⌊sqrt(100 s) + 1/2⌋`
via `(2m+1)^2 ≤ 400 s` with `m = ⌊sqrt(100 s)⌋`. -/
def roundSqrtTenths (s : ℚ) : ℕ :=
  let t : ℚ := 100 * s
  let m := Nat.sqrt (⌊t⌋).toNat
  if ((2 * m + 1 : ℕ) : ℚ) ^ 2 ≤ 4 * t then m + 1 else m

/-- Rendering of a tenths value as the decimal string `%.1f` produces. -/
def fmtTenths (n : ℕ) : String :=
  toString (n / 10) ++ "." ++ toString (n % 10)

/-- The spacing warning string of `_check_furniture_spacing`. -/
def spacingMessage (f1 f2 : PlacedFurniture) : String :=
  "Insufficient spacing between " ++ f1.ftype ++ " and " ++ f2.ftype ++
    " (" ++ fmtTenths (roundSqrtTenths (furnitureDistSq f1 f2)) ++
    "m < 0.6m required)"

/-- `_check_furniture_spacing`: the double loop
`for i, f1 in enumerate(layout): for j, f2 in enumerate(layout[i+1:], i+1)`,
emitting one warning for each index pair `i < j` whose distance is below
0.6m (`distance < 0.6` iff the squared distance is below 0.36). -/
def checkFurnitureSpacing (layout : List PlacedFurniture) : List String :=
  (List.range layout.length).flatMap (fun i =>
    ((List.range layout.length).drop (i + 1)).flatMap (fun j =>
      let f1 := layout.getD i default
      let f2 := layout.getD j default
      if furnitureDistSq f1 f2 < (6/10) ^ 2 then [spacingMessage f1 f2] else []))

/-- The ordered list of index pairs `i < j < n` that the double loop
visits, each exactly once. -/
def indexPairs (n : ℕ) : List (ℕ × ℕ) :=
  (List.range n).flatMap (fun i =>
    ((List.range n).drop (i + 1)).map (fun j => (i, j)))

/-- Truncating conversion to int (`int(q)` on a float), toward zero. -/
def truncQ (q : ℚ) : ℤ := q.num / (q.den : ℤ)

/-- Whether furniture `f` marks grid cell `(gy, gx)` in the 0.1m occupancy
grid of `_check_walkway_clearances`
(`grid[int(y/0.1):int((y+fd)/0.1), int(x/0.1):int((x+fw)/0.1)] = 1`). -/
def occupiesCell (f : PlacedFurniture) (gy gx : ℕ) : Prop :=
  truncQ (f.px / (1/10)) ≤ (gx : ℤ) ∧ (gx : ℤ) < truncQ ((f.px + effW f) / (1/10)) ∧
  truncQ (f.py / (1/10)) ≤ (gy : ℤ) ∧ (gy : ℤ) < truncQ ((f.py + effD f) / (1/10))

instance (f : PlacedFurniture) (gy gx : ℕ) : Decidable (occupiesCell f gy gx) := by
  unfold occupiesCell
  infer_instance

/-- `_check_walkway_clearances`: occupancy-grid free-area ratio below 0.4
emits the density error.  An empty grid gives `0/0 = nan` in the source and
`nan < 0.4` is false, hence the explicit size guard. -/
def walkwayViolations (length width : ℚ) (layout : List PlacedFurniture) :
    List String :=
  let gridWidth := (truncQ (width / (1/10))).toNat
  let gridLength := (truncQ (length / (1/10))).toNat
  let total := gridLength * gridWidth
  let occupied := ((Finset.range gridLength ×ˢ Finset.range gridWidth).filter
    (fun c => layout.any (fun f => decide (occupiesCell f c.1 c.2)))).card
  let freeRatio := ((total - occupied : ℕ) : ℚ) / (total : ℚ)
  if total ≠ 0 ∧ freeRatio < 2/5 then
    ["Insufficient walkway space - furniture layout too dense"]
  else []

/-- `_check_door_clearances`: for every (door, furniture) pair whose
position-to-position Euclidean distance is below 1.2m (compared via
squares), emit the blocking error. -/
def checkDoorClearances (layout : List PlacedFurniture) (doors : List Door) :
    List String :=
  doors.flatMap (fun d =>
    layout.filterMap (fun f =>
      if (f.px - d.dx) ^ 2 + (f.py - d.dy) ^ 2 < (12/10) ^ 2 then
        some (f.ftype ++ " is too close to door - may interfere with door operation")
      else none))

/-- The utilization ratio computed inside
`_generate_layout_recommendations`: total (unrotated) furniture area over
room area. -/
def utilizationRatio (length width : ℚ) (layout : List PlacedFurniture) : ℚ :=
  (layout.map (fun f => f.fwidth * f.fdepth)).sum / (length * width)

/-- Substring test: `pat in s` on Python strings. -/
def strContains (s pat : String) : Bool :=
  (List.range (s.toList.length + 1)).any
    (fun i => pat.toList.isPrefixOf (s.toList.drop i))

/-- `_generate_layout_recommendations`.  The quirky
`'living' in str(furniture_types)` test holds exactly when some placed
type contains the substring `living` (the substring has no quote, comma or
space, so it cannot straddle the set representation's separators). -/
def generateLayoutRecommendations (length width : ℚ)
    (layout : List PlacedFurniture) : List String :=
  let u := utilizationRatio length width layout
  let base :=
    if u < 1/5 then
      ["Room appears under-furnished - consider adding more furniture pieces"]
    else if u > 3/5 then
      ["Room may be over-furnished - consider removing or downsizing some pieces"]
    else []
  let types := layout.map (fun f => f.ftype)
  if "sofa" ∉ types ∧ types.any (fun t => strContains t "living") then
    base ++ ["Consider adding seating for a living room"]
  else base

/-- The validation dict built by `_validate_spatial_requirements`: keys
`valid`, `warnings`, `errors`, `recommendations`. -/
structure ValidationResults where
  valid : Bool
  warnings : List String
  errors : List String
  recommendations : List String
deriving DecidableEq

/-- The keys of the dict literal that `_validate_spatial_requirements`
constructs and returns. -/
def validationResultKeys : List String :=
  ["valid", "warnings", "errors", "recommendations"]

/-- `_validate_spatial_requirements(length, width, furniture_layout,
doors, windows)`: walkway and door findings are errors and clear `valid`;
spacing findings are warnings. -/
def validateSpatialRequirements (length width : ℚ)
    (layout : List PlacedFurniture) (doors : List Door)
    (_windows : List Window) : ValidationResults :=
  let wv := walkwayViolations length width layout
  let dv := checkDoorClearances layout doors
  { valid := decide (wv = [] ∧ dv = [])
    warnings := checkFurnitureSpacing layout
    errors := wv ++ dv
    recommendations := generateLayoutRecommendations length width layout }

/-! ## ImageSpatialValidator (spatial_validator.py)

Detection (`_detect_furniture_objects`) runs cv2 edge/contour extraction
over the image; its output is abstracted here as an arbitrary list of
bounding boxes handed to the scoring steps, which is what the scoring
steps receive in the source. -/

/-- The `BoundingBox` dataclass of spatial_validator.py. -/
structure BoundingBox where
  x : ℚ
  y : ℚ
  width : ℚ
  height : ℚ
  confidence : ℚ
  className : String
deriving DecidableEq

/-- `_furniture_types_match`: the variant table, then case-insensitive
equality.  Empty strings never match (`if not detected_type or not
planned_type`). -/
def furnitureTypesMatch (detected planned : String) : Bool :=
  if detected = "" ∨ planned = "" then false
  else if ([["sofa", "couch"],
            ["coffee_table", "table"],
            ["dining_table", "table"],
            ["tv_unit", "entertainment_center"],
            ["island", "kitchen_island"],
            ["bed"],
            ["dresser", "cabinet"],
            ["nightstand", "side_table"]] : List (List String)).any
      (fun variants => decide (detected ∈ variants ∧ planned ∈ variants)) then true
  else detected.toLower = planned.toLower

/-- Squared pixel distance between the centre of a detected box and the
planned item's pixel position (the source uses the planned `position.x/y`,
not the planned centre). -/
def detectedDistSq (b : BoundingBox) (plannedXpx plannedYpx : ℚ) : ℚ :=
  (b.x + b.width / 2 - plannedXpx) ^ 2 + (b.y + b.height / 2 - plannedYpx) ^ 2

/-- The minimum squared distance over same-type detections (`best_match`
scan of `_validate_furniture_positions`); `none` when no detection
matches the planned type. -/
def minDistSqTo (planned : PlacedFurniture) (ppm : ℚ)
    (detected : List BoundingBox) : Option ℚ :=
  detected.foldl (fun acc b =>
    if furnitureTypesMatch b.className planned.ftype then
      let d := detectedDistSq b (planned.px * ppm) (planned.py * ppm)
      match acc with
      | none => some d
      | some m => if d < m then some d else some m
    else acc) none

/-- Per-planned-item position score: matched items get
`max(0, 1 - distance / (0.3 * pixels_per_meter))`, unmatched items the
fixed partial score 0.5. -/
noncomputable def positionScore (ppm : ℚ) (detected : List BoundingBox)
    (planned : PlacedFurniture) : ℝ :=
  match minDistSqTo planned ppm detected with
  | none => 1/2
  | some s => max 0 (1 - Real.sqrt (s : ℝ) / ((3/10 * ppm : ℚ) : ℝ))

/-- `_validate_furniture_positions`: 0.7 with no planned furniture, else
the mean of the per-item scores. -/
noncomputable def validateFurniturePositions (detected : List BoundingBox)
    (planned : List PlacedFurniture) (ppm : ℚ) : ℝ :=
  if planned.isEmpty then 7/10
  else (planned.map (positionScore ppm detected)).sum / (planned.length : ℝ)

/-- The claim text's reading of the matching step, for comparison: it
measures from the planned item's centre (position plus half the rotated
footprint) rather than from the planned position. -/
def minDistSqToCenterRef (planned : PlacedFurniture) (ppm : ℚ)
    (detected : List BoundingBox) : Option ℚ :=
  detected.foldl (fun acc b =>
    if furnitureTypesMatch b.className planned.ftype then
      let d := detectedDistSq b ((planned.px + effW planned / 2) * ppm)
        ((planned.py + effD planned / 2) * ppm)
      match acc with
      | none => some d
      | some m => if d < m then some d else some m
    else acc) none

/-- Per-item position score as the claim words it (centre-based). -/
noncomputable def positionScoreCenterRef (ppm : ℚ) (detected : List BoundingBox)
    (planned : PlacedFurniture) : ℝ :=
  match minDistSqToCenterRef planned ppm detected with
  | none => 1/2
  | some s => max 0 (1 - Real.sqrt (s : ℝ) / ((3/10 * ppm : ℚ) : ℝ))

/-- Centre-based variant of `_validate_furniture_positions`, from the
claim words. -/
noncomputable def validateFurniturePositionsCenterRef
    (detected : List BoundingBox) (planned : List PlacedFurniture)
    (ppm : ℚ) : ℝ :=
  if planned.isEmpty then 7/10
  else (planned.map (positionScoreCenterRef ppm detected)).sum / (planned.length : ℝ)

/-- The `standard_dimensions` table (width, depth). -/
def scaleStandardDims (t : String) : Option (ℚ × ℚ) :=
  if t = "sofa" then some (22/10, 9/10)
  else if t = "coffee_table" then some (12/10, 6/10)
  else if t = "dining_table" then some (15/10, 1)
  else if t = "bed" then some (16/10, 2)
  else if t = "kitchen_island" then some (2, 1)
  else if t = "tv_unit" then some (15/10, 4/10)
  else if t = "dresser" then some (1, 1/2)
  else if t = "nightstand" then some (1/2, 4/10)
  else none

/-- Per-detection scale score of `_validate_furniture_scales`: ratio of
ratios, averaged over the two axes, rescaled by the 0.2 tolerance and
clamped into [0, 1]. -/
def scaleScoreOf (ppm : ℚ) (b : BoundingBox) : Option ℚ :=
  match scaleStandardDims b.className with
  | none => none
  | some ed =>
    let dw := b.width / ppm
    let dh := b.height / ppm
    let widthRatio := min (dw / ed.1) (ed.1 / dw)
    let depthRatio := min (dh / ed.2) (ed.2 / dh)
    let avgRatio := (widthRatio + depthRatio) / 2
    some (min 1 (max 0 ((avgRatio - (1 - 2/10)) / (2/10))))

/-- `_validate_furniture_scales`: 0.7 with no scorable detections, else
the mean. -/
def validateFurnitureScales (detected : List BoundingBox) (ppm : ℚ) : ℚ :=
  let scores := detected.filterMap (scaleScoreOf ppm)
  if scores.isEmpty then 7/10 else scores.sum / (scores.length : ℚ)

/-- The generic ordered pair list `(obj_i, obj_j)` for `i < j`, mirroring
the nested loops of the pairwise checks. -/
def pairsAfter {α : Type} : List α → List (α × α)
  | [] => []
  | a :: rest => rest.map (fun b => (a, b)) ++ pairsAfter rest

/-- Whether a pair of boxes violates the 10% overlap threshold of
`_check_furniture_overlaps`. -/
def overlapViolating (p : BoundingBox × BoundingBox) : Prop :=
  let x1 := max p.1.x p.2.x
  let y1 := max p.1.y p.2.y
  let x2 := min (p.1.x + p.1.width) (p.2.x + p.2.width)
  let y2 := min (p.1.y + p.1.height) (p.2.y + p.2.height)
  x1 < x2 ∧ y1 < y2 ∧
    (x2 - x1) * (y2 - y1) / min (p.1.width * p.1.height) (p.2.width * p.2.height) > 1/10

instance (p : BoundingBox × BoundingBox) : Decidable (overlapViolating p) := by
  unfold overlapViolating
  infer_instance

/-- `_check_furniture_overlaps`: 1 for fewer than two boxes, else one
minus the fraction of violating pairs. -/
def checkFurnitureOverlaps (detected : List BoundingBox) : ℚ :=
  if detected.length < 2 then 1
  else
    let totalPairs := (pairsAfter detected).length
    1 - (((pairsAfter detected).filter (fun p => decide (overlapViolating p))).length : ℚ) /
      (totalPairs : ℚ)

/-- `_check_accessibility_paths`: density bands over total furniture area
divided by the scale-reference image area. -/
def checkAccessibilityPaths (detected : List BoundingBox)
    (roomWidthPx roomLengthPx : ℚ) : ℚ :=
  if detected.isEmpty then 1
  else
    let density := (detected.map (fun b => b.width * b.height)).sum /
      (roomWidthPx * roomLengthPx)
    if density < 3/10 then 1
    else if density < 1/2 then 8/10
    else if density < 7/10 then 6/10
    else 3/10

/-- Violations counted by `_check_spatial_constraints`: a `NO_ISLAND` rule
is violated (once, the loop breaks) when any detection's lowercased class
contains `island`; a `GALLEY_KITCHEN_ONLY` rule adds one violation per
kitchen_island or dining_table detection (no break). -/
def constraintViolationCount (detected : List BoundingBox)
    (rules : List String) : ℕ :=
  (rules.map (fun rule =>
    if strContains rule "NO_ISLAND" then
      if detected.any (fun o => strContains o.className.toLower "island") then 1 else 0
    else if strContains rule "GALLEY_KITCHEN_ONLY" then
      (detected.filter (fun o =>
        decide (o.className = "kitchen_island" ∨ o.className = "dining_table"))).length
    else 0)).sum

/-- `_check_spatial_constraints`: 1 with no rules, else the clamped
compliance ratio. -/
def checkSpatialConstraints (detected : List BoundingBox)
    (rules : List String) : ℚ :=
  if rules.isEmpty then 1
  else max 0 (1 - (constraintViolationCount detected rules : ℚ) / (rules.length : ℚ))

/-- `_validate_layout_compliance`: mean of the overlap score, the
accessibility score, and (when a spatial-constraints dict is present) the
rule-compliance score. -/
def validateLayoutCompliance (detected : List BoundingBox)
    (constraints : Option (List String)) (roomWidthPx roomLengthPx : ℚ) : ℚ :=
  let scores :=
    [checkFurnitureOverlaps detected,
     checkAccessibilityPaths detected roomWidthPx roomLengthPx] ++
    (match constraints with
     | none => []
     | some rules => [checkSpatialConstraints detected rules])
  scores.sum / (scores.length : ℚ)

/-- `_find_missing_furniture`: planned types with no matching
detection. -/
def findMissingFurniture (detected : List BoundingBox)
    (planned : List PlacedFurniture) : List String :=
  planned.filterMap (fun p =>
    if detected.any (fun d => furnitureTypesMatch d.className p.ftype) then none
    else some p.ftype)

/-- `_generate_validation_recommendations`, a pure function of the four
scores and the missing list. -/
noncomputable def generateValidationRecommendations (spatialAccuracy
    scaleConsistency layoutCompliance overall : ℝ)
    (missing : List String) : List String := by
  classical
  exact
    (if spatialAccuracy < 7/10 then
      ["Furniture positioning needs improvement - consider adjusting object placement to match floor plan"]
     else []) ++
    (if scaleConsistency < 7/10 then
      ["Furniture scale appears inconsistent - verify that objects are sized appropriately for the room"]
     else []) ++
    (if layoutCompliance < 6/10 then
      ["Layout may violate spatial constraints - check for adequate clearances and accessibility"]
     else []) ++
    (if missing.isEmpty then []
     else ["Missing planned furniture items: " ++ String.intercalate ", " missing]) ++
    (if overall < 1/2 then
      ["Consider regenerating the design with stronger spatial conditioning"]
     else if overall < 7/10 then
      ["Design is partially compliant - minor adjustments may improve spatial accuracy"]
     else
      ["Design shows good spatial compliance with floor plan constraints"])

/-- The validation-results dict of `validate_generated_image`. -/
structure ComplianceReport where
  overallScore : ℝ
  spatialAccuracy : ℝ
  scaleConsistency : ℝ
  layoutCompliance : ℝ
  violations : List String
  recommendations : List String
  detectedObjects : List BoundingBox
  missingObjects : List String

/-- The degraded report returned when the scale reference cannot be
established: all four scores fixed at 0.5, a single violation, a single
manual-review recommendation. -/
noncomputable def degradedReport : ComplianceReport :=
  { overallScore := 1/2
    spatialAccuracy := 1/2
    scaleConsistency := 1/2
    layoutCompliance := 1/2
    violations := ["Unable to establish spatial reference in image"]
    recommendations := ["Image perspective analysis limited - manual review recommended"]
    detectedObjects := []
    missingObjects := [] }

/-- `validate_generated_image`.  `_extract_room_perspective` fails (its
internal exception, a float division by zero) exactly when a supplied room
dimension is zero; missing dimensions take the `.get` defaults 4.0 and
5.0.  `pixels_per_meter = min(imgW/roomW, imgH/roomL) * 0.6`; the three
sub-scores and the 0.4/0.3/0.3 aggregate follow the source. -/
noncomputable def validateGeneratedImage (imgWidth imgHeight : ℕ)
    (roomWidth roomLength : Option ℚ) (planned : List PlacedFurniture)
    (constraints : Option (List String)) (detected : List BoundingBox) :
    ComplianceReport :=
  let rw := roomWidth.getD 4
  let rl := roomLength.getD 5
  if rw = 0 ∨ rl = 0 then degradedReport
  else
    let ppm := min ((imgWidth : ℚ) / rw) ((imgHeight : ℚ) / rl) * (6/10)
    let p := validateFurniturePositions detected planned ppm
    let s := validateFurnitureScales detected ppm
    let lc := validateLayoutCompliance detected constraints (rw * ppm) (rl * ppm)
    let overall := (4/10 : ℝ) * p + (3/10) * (s : ℝ) + (3/10) * (lc : ℝ)
    let missing := findMissingFurniture detected planned
    { overallScore := overall
      spatialAccuracy := p
      scaleConsistency := (s : ℝ)
      layoutCompliance := (lc : ℝ)
      violations := []
      recommendations :=
        generateValidationRecommendations p (s : ℝ) (lc : ℝ) overall missing
      detectedObjects := detected
      missingObjects := missing }

theorem gapX_comm (f1 f2 : PlacedFurniture) : gapX f1 f2 = gapX f2 f1 := by
  unfold gapX
  rw [max_comm (f1.px - (f2.px + effW f2))]

theorem gapY_comm (f1 f2 : PlacedFurniture) : gapY f1 f2 = gapY f2 f1 := by
  unfold gapY
  rw [max_comm (f1.py - (f2.py + effD f2))]

theorem furnitureDistSq_comm (f1 f2 : PlacedFurniture) :
    furnitureDistSq f1 f2 = furnitureDistSq f2 f1 := by
  unfold furnitureDistSq
  rw [gapX_comm, gapY_comm]

theorem furnitureDistSq_nonneg (f1 f2 : PlacedFurniture) :
    0 ≤ furnitureDistSq f1 f2 := by
  unfold furnitureDistSq
  positivity

/-! ## PlacementSearch (floor_plan_generator.py)

`min_furniture_spacing = 0.6`, door clearance `1.2`, grid step `0.2`. -/

/-- Number of elements of `numpy.arange(start, stop, step)` for a positive
step: `⌈(stop - start)/step⌉`, zero when `stop ≤ start`. -/
def arangeCount (start stop step : ℚ) : ℕ :=
  if stop ≤ start then 0 else (⌈(stop - start) / step⌉).toNat

/-- `numpy.arange(start, stop, step)` as the list `start + k * step`. -/
def arange (start stop step : ℚ) : List ℚ :=
  (List.range (arangeCount start stop step)).map (fun k : ℕ => start + (k : ℚ) * step)

/-- One x-column of the candidate grid of
`_find_optimal_furniture_position`: the inner y loop, rotation 0 first,
with a rotation-90 candidate appended when the item is non-square and the
swapped footprint still fits inside the 0.5m margin. -/
def columnPositions (f : FurnitureSpec) (length width : ℚ) (x : ℚ) :
    List FurniturePosition :=
  (arange (1/2) (length - f.fdepth - 1/2) (1/5)).flatMap (fun y =>
    ⟨x, y, 0⟩ ::
      (if f.fwidth ≠ f.fdepth ∧ x + f.fdepth < width - 1/2 ∧ y + f.fwidth < length - 1/2
       then [⟨x, y, 90⟩] else []))

/-- The full candidate list: the 0.2m grid with the x loop outermost. -/
def positionsToTry (f : FurnitureSpec) (length width : ℚ) : List FurniturePosition :=
  (arange (1/2) (width - f.fwidth - 1/2) (1/5)).flatMap (columnPositions f length width)

/-- `_score_furniture_position`.  The door check compares the Euclidean
distance from the candidate origin to the door position against 1.2m; we
compare squares, which is equivalent.  Boundary violations and collisions
with the 0.6m spacing buffer return 0 immediately, as in the source. -/
def scoreFurniturePosition (pos : FurniturePosition) (f : FurnitureSpec)
    (length width : ℚ) (doors : List Door)
    (existing : List PlacedFurniture) : ℚ :=
  let fw := (effDims f.fwidth f.fdepth pos.rot).1
  let fd := (effDims f.fwidth f.fdepth pos.rot).2
  if pos.x + fw > width ∨ pos.y + fd > length then 0
  else if existing.any (fun e =>
      decide (pos.x < e.px + effW e + 6/10 ∧ pos.x + fw + 6/10 > e.px ∧
        pos.y < e.py + effD e + 6/10 ∧ pos.y + fd + 6/10 > e.py)) then 0
  else
    let afterDoors : ℚ := 100 -
      50 * ((doors.filter (fun d =>
        (pos.x - d.dx)^2 + (pos.y - d.dy)^2 < (12/10)^2)).length : ℚ)
    let wallDistance :=
      min (min pos.x pos.y) (min (width - pos.x - fw) (length - pos.y - fd))
    let afterWalls := if wallDistance > 1/2 then afterDoors + 10 else afterDoors
    if f.ftype = "sofa" then
      afterWalls + 1 / (1 + |pos.x + fw/2 - width/2| + |pos.y + fd/2 - length/2|) * 20
    else if f.ftype = "island" then
      if 1 < pos.x ∧ pos.x + fw < width - 1 ∧ 1 < pos.y ∧ pos.y + fd < length - 1
      then afterWalls + 30
      else afterWalls - 30
    else afterWalls

/-- The score before any type-specific adjustment: 100, minus 50 per door
within 1.2m, plus the 10-point wall-distance bonus.  This is the value the
source holds just before the sofa/island branch. -/
def scoreBase (pos : FurniturePosition) (f : FurnitureSpec)
    (length width : ℚ) (doors : List Door) : ℚ :=
  let fw := (effDims f.fwidth f.fdepth pos.rot).1
  let fd := (effDims f.fwidth f.fdepth pos.rot).2
  let afterDoors : ℚ := 100 -
    50 * ((doors.filter (fun d =>
      (pos.x - d.dx)^2 + (pos.y - d.dy)^2 < (12/10)^2)).length : ℚ)
  if min (min pos.x pos.y) (min (width - pos.x - fw) (length - pos.y - fd)) > 1/2
  then afterDoors + 10 else afterDoors

/-- The strict clearance test of the island branch of
`_score_furniture_position`: `x > 1.0 and x + fw < width - 1.0 and
y > 1.0 and y + fd < length - 1.0`. -/
def islandStrictClearance (pos : FurniturePosition) (f : FurnitureSpec)
    (length width : ℚ) : Prop :=
  1 < pos.x ∧ pos.x + (effDims f.fwidth f.fdepth pos.rot).1 < width - 1 ∧
  1 < pos.y ∧ pos.y + (effDims f.fwidth f.fdepth pos.rot).2 < length - 1

instance (pos : FurniturePosition) (f : FurnitureSpec) (length width : ℚ) :
    Decidable (islandStrictClearance pos f length width) := by
  unfold islandStrictClearance
  infer_instance

/-- One step of the best-candidate scan: keep positions beating the
running best score strictly (`score > best_score`), so the first
maximiser in enumeration order wins. -/
def bestStep (f : FurnitureSpec) (length width : ℚ) (doors : List Door)
    (existing : List PlacedFurniture)
    (b : Option FurniturePosition × ℚ) (p : FurniturePosition) :
    Option FurniturePosition × ℚ :=
  if scoreFurniturePosition p f length width doors existing > b.2 then
    (some p, scoreFurniturePosition p f length width doors existing)
  else b

/-- The best-candidate scan of `_find_optimal_furniture_position`,
starting from `(None, -1)`. -/
def bestCandidate (f : FurnitureSpec) (length width : ℚ) (doors : List Door)
    (existing : List PlacedFurniture) : Option FurniturePosition × ℚ :=
  (positionsToTry f length width).foldl (bestStep f length width doors existing) (none, -1)

/-- `_find_optimal_furniture_position`: the best candidate if its score is
strictly positive, `None` otherwise. -/
def findOptimalFurniturePosition (f : FurnitureSpec) (length width : ℚ)
    (doors : List Door) (existing : List PlacedFurniture) :
    Option FurniturePosition :=
  let b := bestCandidate f length width doors existing
  if b.2 > 0 then b.1 else none

/-- Building the placed-furniture dict from the winning candidate. -/
def place (f : FurnitureSpec) (p : FurniturePosition) : PlacedFurniture :=
  ⟨f.ftype, f.fwidth, f.fdepth, p.x, p.y, p.rot⟩

/-- The placement loop body of `_generate_furniture_layout`: skip items
whose `min_room_width` exceeds the room width, skip items with no feasible
position, append the rest in order. -/
def layoutAux (length width : ℚ) (doors : List Door) :
    List PlacedFurniture → List FurnitureSpec → List PlacedFurniture
  | placed, [] => placed
  | placed, f :: rest =>
    if f.minRoomWidth > width then layoutAux length width doors placed rest
    else
      match findOptimalFurniturePosition f length width doors placed with
      | none => layoutAux length width doors placed rest
      | some p => layoutAux length width doors (placed ++ [place f p]) rest

/-- The built-in kitchen catalog of `standard_furniture`. -/
def kitchenCatalog : List FurnitureSpec :=
  [⟨"cabinets", 6/10, 6/10, 1, 0⟩,
   ⟨"island", 2, 1, 2, 37/10⟩,
   ⟨"appliances", 6/10, 6/10, 1, 0⟩]

/-- The built-in living-room catalog. -/
def livingRoomCatalog : List FurnitureSpec :=
  [⟨"sofa", 22/10, 9/10, 1, 0⟩,
   ⟨"coffee_table", 12/10, 6/10, 2, 0⟩,
   ⟨"tv_unit", 15/10, 4/10, 2, 0⟩]

/-- The built-in bedroom catalog. -/
def bedroomCatalog : List FurnitureSpec :=
  [⟨"bed", 16/10, 2, 1, 0⟩,
   ⟨"nightstand", 1/2, 4/10, 2, 0⟩,
   ⟨"dresser", 1, 1/2, 2, 0⟩]

/-- The built-in dining-room catalog. -/
def diningRoomCatalog : List FurnitureSpec :=
  [⟨"dining_table", 15/10, 1, 1, 0⟩,
   ⟨"chairs", 1/2, 1/2, 1, 0⟩,
   ⟨"sideboard", 15/10, 4/10, 2, 0⟩]

/-- `standard_furniture.get(room_type, [])`. -/
def standardFurniture (roomType : String) : List FurnitureSpec :=
  if roomType = "kitchen" then kitchenCatalog
  else if roomType = "living-room" then livingRoomCatalog
  else if roomType = "bedroom" then bedroomCatalog
  else if roomType = "dining-room" then diningRoomCatalog
  else []

/-- `sorted(furniture_list, key=lambda x: x.get('priority', 999))`:
a stable ascending sort by priority. -/
def sortByPriority (l : List FurnitureSpec) : List FurnitureSpec :=
  l.mergeSort (fun a b => decide (a.priority ≤ b.priority))

/-- `_generate_furniture_layout(length, width, doors, windows,
requirements, room_type)`.  Windows are received but never read by the
placement chain; the unused `available_area` computation of the source has
no effect on the result and is omitted. -/
def generateFurnitureLayout (length width : ℚ) (doors : List Door)
    (_windows : List Window) (reqs : List FurnitureSpec)
    (roomType : String) : List PlacedFurniture :=
  let furnitureList := if reqs.isEmpty then standardFurniture roomType else reqs
  layoutAux length width doors [] (sortByPriority furnitureList)

/-! ## ZoneGenerator (spatial_layout_engine.py)

`KITCHEN_STANDARDS`: counter_depth = 0.6, island_clearance = 1.0,
min_walkway = 0.9, island_min_width = 1.2, island_min_length = 2.0. -/

/-- A furniture zone dict: `type`, `name`, `x`, `y`, `width`, `height`
(the appliance list and flags carry no geometry and are omitted). -/
structure Zone where
  ztype : String
  zname : String
  zx : ℚ
  zy : ℚ
  zwidth : ℚ
  zheight : ℚ
deriving DecidableEq

/-- `_create_galley_zones`. -/
def createGalleyZones (width length : ℚ) : List Zone :=
  let counterDepth : ℚ := 6/10
  let walkway := width - 2 * counterDepth
  if walkway ≥ 9/10 then
    [⟨"counter", "left_counter", 0, 0, counterDepth, length⟩,
     ⟨"counter", "right_counter", width - counterDepth, 0, counterDepth, length⟩,
     ⟨"walkway", "center_walkway", counterDepth, 0, walkway, length⟩]
  else
    [⟨"counter", "main_counter", 0, 0, counterDepth, length⟩,
     ⟨"walkway", "open_space", counterDepth, 0, width - counterDepth, length⟩]

/-- `_create_island_zones`: island dimensions are
`min(width - 2*0.6 - 2*1.0, 1.2*1.5)` by `min(length - 2*1.0, 2.0*1.5)`,
centred. -/
def createIslandZones (width length : ℚ) : List Zone :=
  let counterDepth : ℚ := 6/10
  let islandClearance : ℚ := 1
  let availableWidth := width - 2 * counterDepth - 2 * islandClearance
  let availableLength := length - 2 * islandClearance
  let islandWidth := min availableWidth (12/10 * (3/2))
  let islandLength := min availableLength (2 * (3/2))
  let islandX := (width - islandWidth) / 2
  let islandY := (length - islandLength) / 2
  [⟨"counter", "back_counter", 0, 0, width, counterDepth⟩,
   ⟨"counter", "side_counter", width - counterDepth, counterDepth, counterDepth,
     length - counterDepth⟩,
   ⟨"island", "center_island", islandX, islandY, islandWidth, islandLength⟩]

/-- `_create_single_wall_zones`. -/
def createSingleWallZones (width length : ℚ) : List Zone :=
  let counterDepth : ℚ := 6/10
  [⟨"counter", "main_wall", 0, 0, counterDepth, length⟩,
   ⟨"open_space", "room_space", counterDepth, 0, width - counterDepth, length⟩]

/-- `_create_l_shaped_zones`. -/
def createLShapedZones (width length : ℚ) : List Zone :=
  let counterDepth : ℚ := 6/10
  [⟨"counter", "main_wall", 0, 0, counterDepth, length⟩,
   ⟨"counter", "side_wall", 0, length - counterDepth, width * (6/10), counterDepth⟩]

/-- `_create_u_shaped_zones`. -/
def createUShapedZones (width length : ℚ) : List Zone :=
  let counterDepth : ℚ := 6/10
  [⟨"counter", "left_wall", 0, 0, counterDepth, length⟩,
   ⟨"counter", "back_wall", 0, 0, width, counterDepth⟩,
   ⟨"counter", "right_wall", width - counterDepth, 0, counterDepth, length⟩]

/-- `_generate_furniture_zones`: dispatch on the layout type string
(unknown types yield the empty list, as in the source). -/
def generateFurnitureZones (width length : ℚ) (layoutType : String) : List Zone :=
  if layoutType = "galley" then createGalleyZones width length
  else if layoutType = "single_wall" then createSingleWallZones width length
  else if layoutType = "l_shaped" then createLShapedZones width length
  else if layoutType = "u_shaped" then createUShapedZones width length
  else if layoutType = "island" then createIslandZones width length
  else []

/-- Two zones overlap when the interiors of their bounding rectangles
share a point: the open intervals on each axis intersect. -/
def zonesOverlap (z1 z2 : Zone) : Prop :=
  max z1.zx z2.zx < min (z1.zx + z1.zwidth) (z2.zx + z2.zwidth) ∧
  max z1.zy z2.zy < min (z1.zy + z1.zheight) (z2.zy + z2.zheight)

instance (z1 z2 : Zone) : Decidable (zonesOverlap z1 z2) := by
  unfold zonesOverlap
  infer_instance

theorem galley_zones_pairwise_disjoint (w l : ℚ) :
    (createGalleyZones w l).Pairwise (fun a b => ¬ zonesOverlap a b) := by
  simp only [createGalleyZones]
  split_ifs with hwk
  all_goals
    simp only [List.pairwise_cons, List.mem_cons, List.mem_singleton,
      List.not_mem_nil, List.Pairwise.nil, forall_eq_or_imp, forall_eq,
      implies_true, and_true, IsEmpty.forall_iff, imp_false]
  all_goals repeat' apply And.intro
  all_goals
    rintro ⟨hx, hy⟩
    simp only [max_lt_iff, lt_min_iff] at hx hy
    obtain ⟨⟨hx1, hx2⟩, hx3, hx4⟩ := hx
    linarith

theorem singleWall_zones_pairwise_disjoint (w l : ℚ) :
    (createSingleWallZones w l).Pairwise (fun a b => ¬ zonesOverlap a b) := by
  simp only [createSingleWallZones]
  simp only [List.pairwise_cons, List.mem_cons, List.mem_singleton,
    List.not_mem_nil, List.Pairwise.nil, forall_eq_or_imp, forall_eq,
    implies_true, and_true, IsEmpty.forall_iff, imp_false]
  rintro ⟨hx, hy⟩
  simp only [max_lt_iff, lt_min_iff] at hx hy
  obtain ⟨⟨hx1, hx2⟩, hx3, hx4⟩ := hx
  linarith

theorem island_zones_pairwise_disjoint (w l : ℚ) :
    (createIslandZones w l).Pairwise (fun a b => ¬ zonesOverlap a b) := by
  simp only [createIslandZones]
  simp only [List.pairwise_cons, List.mem_cons, List.mem_singleton,
    List.not_mem_nil, List.Pairwise.nil, forall_eq_or_imp, forall_eq,
    implies_true, and_true, IsEmpty.forall_iff, imp_false]
  repeat' apply And.intro
  all_goals
    rintro ⟨hx, hy⟩
    simp only [max_lt_iff, lt_min_iff] at hx hy
    obtain ⟨⟨hx1, hx2⟩, hx3, hx4⟩ := hx
    obtain ⟨⟨hy1, hy2⟩, hy3, hy4⟩ := hy
    linarith [min_le_left (w - 2 * (6/10 : ℚ) - 2 * 1) (12/10 * (3/2)),
      min_le_left (l - 2 * 1 : ℚ) (2 * (3/2))]

/-- Column-at-a-time form of the best-candidate scan, used to evaluate
concrete searches without one monolithic reduction. -/
def columnStep (f : FurnitureSpec) (length width : ℚ) (doors : List Door)
    (existing : List PlacedFurniture)
    (acc : Option FurniturePosition × ℚ) (x : ℚ) :
    Option FurniturePosition × ℚ :=
  (columnPositions f length width x).foldl (bestStep f length width doors existing) acc

theorem foldl_flatMap_general {α β γ : Type} (l : List α) (g : α → List β)
    (f : γ → β → γ) (b : γ) :
    (l.flatMap g).foldl f b = l.foldl (fun acc a => (g a).foldl f acc) b := by
  induction l generalizing b with
  | nil => rfl
  | cons a t ih => simp [List.flatMap_cons, List.foldl_append, ih]

theorem bestCandidate_eq_columns (f : FurnitureSpec) (length width : ℚ)
    (doors : List Door) (existing : List PlacedFurniture) (xs : List ℚ)
    (hxs : arange (1/2) (width - f.fwidth - 1/2) (1/5) = xs) :
    bestCandidate f length width doors existing =
      xs.foldl (columnStep f length width doors existing) (none, -1) := by
  unfold bestCandidate positionsToTry columnStep
  rw [foldl_flatMap_general, hxs]

theorem foldl_bestStep_spec (f : FurnitureSpec) (length width : ℚ)
    (doors : List Door) (existing : List PlacedFurniture) :
    ∀ (l : List FurniturePosition) (b : Option FurniturePosition × ℚ),
      (l.foldl (bestStep f length width doors existing) b = b) ∨
      (∃ p ∈ l, l.foldl (bestStep f length width doors existing) b =
        (some p, scoreFurniturePosition p f length width doors existing)) := by
  intro l
  induction l with
  | nil => intro b; left; rfl
  | cons a t ih =>
    intro b
    rw [List.foldl_cons]
    simp only [bestStep]
    split_ifs with h
    · rcases ih (some a, scoreFurniturePosition a f length width doors existing) with
        heq | ⟨p, hp, heq⟩
      · right
        exact ⟨a, List.mem_cons_self a t, heq⟩
      · right
        exact ⟨p, List.mem_cons_of_mem a hp, heq⟩
    · rcases ih b with heq | ⟨p, hp, heq⟩
      · left; exact heq
      · right; exact ⟨p, List.mem_cons_of_mem a hp, heq⟩

theorem foldl_bestStep_ge (f : FurnitureSpec) (length width : ℚ)
    (doors : List Door) (existing : List PlacedFurniture) :
    ∀ (l : List FurniturePosition) (b : Option FurniturePosition × ℚ),
      b.2 ≤ (l.foldl (bestStep f length width doors existing) b).2 ∧
      ∀ p ∈ l, scoreFurniturePosition p f length width doors existing ≤
        (l.foldl (bestStep f length width doors existing) b).2 := by
  intro l
  induction l with
  | nil => exact fun b => ⟨le_refl _, by simp⟩
  | cons a t ih =>
    intro b
    rw [List.foldl_cons]
    simp only [bestStep]
    split_ifs with h
    · obtain ⟨h1, h2⟩ := ih (some a, scoreFurniturePosition a f length width doors existing)
      refine ⟨le_trans (le_of_lt h) h1, ?_⟩
      intro p hp
      rcases List.mem_cons.mp hp with rfl | hp
      · exact h1
      · exact h2 p hp
    · obtain ⟨h1, h2⟩ := ih b
      refine ⟨h1, ?_⟩
      intro p hp
      rcases List.mem_cons.mp hp with rfl | hp
      · exact le_trans (not_lt.mp h) h1
      · exact h2 p hp

theorem findOptimal_some_spec {f : FurnitureSpec} {length width : ℚ}
    {doors : List Door} {existing : List PlacedFurniture} {p : FurniturePosition}
    (h : findOptimalFurniturePosition f length width doors existing = some p) :
    p ∈ positionsToTry f length width ∧
      0 < scoreFurniturePosition p f length width doors existing := by
  simp only [findOptimalFurniturePosition] at h
  rcases foldl_bestStep_spec f length width doors existing
      (positionsToTry f length width) (none, -1) with heq | ⟨q, hq, heq⟩
  · have hb : bestCandidate f length width doors existing = (none, -1) := heq
    rw [hb] at h
    have hcond : ¬ (((none, -1) : Option FurniturePosition × ℚ).2 > 0) := by norm_num
    rw [if_neg hcond] at h
    exact absurd h (by simp)
  · have hb : bestCandidate f length width doors existing =
        (some q, scoreFurniturePosition q f length width doors existing) := heq
    rw [hb] at h
    by_cases hpos : 0 < scoreFurniturePosition q f length width doors existing
    · have hcond : ((some q, scoreFurniturePosition q f length width doors existing).2 > 0) := hpos
      rw [if_pos hcond] at h
      have h2 : some q = some p := h
      injection h2 with h3
      subst h3
      exact ⟨hq, hpos⟩
    · have hcond : ¬ ((some q, scoreFurniturePosition q f length width doors existing).2 > 0) := hpos
      rw [if_neg hcond] at h
      exact absurd h (by simp)

theorem arange_mem_bounds {s e st : ℚ} (hst : 0 < st) {v : ℚ}
    (hv : v ∈ arange s e st) : s ≤ v ∧ v < e := by
  unfold arange arangeCount at hv
  rw [List.mem_map] at hv
  obtain ⟨k, hk, rfl⟩ := hv
  rw [List.mem_range] at hk
  have hks : (0 : ℚ) ≤ (k : ℚ) * st := mul_nonneg (by positivity) hst.le
  split_ifs at hk with hle
  · exact absurd hk (Nat.not_lt_zero k)
  · push_neg at hle
    refine ⟨by linarith, ?_⟩
    have hk2 : (k : ℤ) < ⌈(e - s) / st⌉ := Int.lt_toNat.mp hk
    have hk3 : (k : ℚ) ≤ (⌈(e - s) / st⌉ : ℚ) - 1 := by
      exact_mod_cast Int.le_sub_one_of_lt hk2
    have hceil : (⌈(e - s) / st⌉ : ℚ) < (e - s) / st + 1 :=
      Int.ceil_lt_add_one _
    have hlt : (k : ℚ) < (e - s) / st := by linarith
    have hmul := mul_lt_mul_of_pos_right hlt hst
    rw [div_mul_cancel₀ _ (ne_of_gt hst)] at hmul
    linarith

theorem columnPositions_margins {f : FurnitureSpec} {length width x : ℚ}
    {p : FurniturePosition}
    (hx : 1/2 ≤ x ∧ x < width - f.fwidth - 1/2)
    (hp : p ∈ columnPositions f length width x) :
    1/2 ≤ p.x ∧ 1/2 ≤ p.y ∧
      p.x + (effDims f.fwidth f.fdepth p.rot).1 < width - 1/2 ∧
      p.y + (effDims f.fwidth f.fdepth p.rot).2 < length - 1/2 := by
  unfold columnPositions at hp
  simp only [List.mem_flatMap] at hp
  obtain ⟨y, hy, hmem⟩ := hp
  have hyb := arange_mem_bounds (by norm_num) hy
  rcases List.mem_cons.mp hmem with rfl | hrot
  · refine ⟨hx.1, hyb.1, ?_, ?_⟩
    · simp only [effDims, if_neg (by norm_num : (0 : ℕ) ≠ 90)]
      have := hx.2
      linarith
    · simp only [effDims, if_neg (by norm_num : (0 : ℕ) ≠ 90)]
      have := hyb.2
      linarith
  · split_ifs at hrot with hcond
    · simp only [List.mem_singleton] at hrot
      subst hrot
      refine ⟨hx.1, hyb.1, ?_, ?_⟩
      · simp only [effDims, if_pos rfl]
        exact hcond.2.1
      · simp only [effDims, if_pos rfl]
        exact hcond.2.2
    · simp at hrot

theorem positionsToTry_margins {f : FurnitureSpec} {length width : ℚ}
    {p : FurniturePosition} (hp : p ∈ positionsToTry f length width) :
    1/2 ≤ p.x ∧ 1/2 ≤ p.y ∧
      p.x + (effDims f.fwidth f.fdepth p.rot).1 < width - 1/2 ∧
      p.y + (effDims f.fwidth f.fdepth p.rot).2 < length - 1/2 := by
  unfold positionsToTry at hp
  simp only [List.mem_flatMap] at hp
  obtain ⟨x, hx, hmem⟩ := hp
  exact columnPositions_margins (arange_mem_bounds (by norm_num) hx) hmem

theorem separation_of_no_overlap {ax ay aw ad bx bw bd byy : ℚ}
    (h : ¬ (ax < bx + bw + 6/10 ∧ ax + aw + 6/10 > bx ∧
            ay < byy + bd + 6/10 ∧ ay + ad + 6/10 > byy)) :
    (6/10 : ℚ) ^ 2 ≤
      (max 0 (max (ax - (bx + bw)) (bx - (ax + aw)))) ^ 2 +
      (max 0 (max (ay - (byy + bd)) (byy - (ay + ad)))) ^ 2 := by
  push_neg at h
  set gx := max (0 : ℚ) (max (ax - (bx + bw)) (bx - (ax + aw))) with hgx
  set gy := max (0 : ℚ) (max (ay - (byy + bd)) (byy - (ay + ad))) with hgy
  by_cases h1 : ax < bx + bw + 6/10
  · by_cases h2 : ax + aw + 6/10 > bx
    · by_cases h3 : ay < byy + bd + 6/10
      · have h4 := h h1 h2 h3
        have hg : 6/10 ≤ gy := by
          rw [hgy]
          refine le_trans (by linarith) (le_trans (le_max_right _ _) (le_max_right _ _))
        nlinarith [sq_nonneg gx, sq_nonneg (gy - 6/10), hg]
      · push_neg at h3
        have hg : 6/10 ≤ gy := by
          rw [hgy]
          refine le_trans (by linarith) (le_trans (le_max_left _ _) (le_max_right _ _))
        nlinarith [sq_nonneg gx, sq_nonneg (gy - 6/10), hg]
    · push_neg at h2
      have hg : 6/10 ≤ gx := by
        rw [hgx]
        refine le_trans (by linarith) (le_trans (le_max_right _ _) (le_max_right _ _))
      nlinarith [sq_nonneg gy, sq_nonneg (gx - 6/10), hg]
  · push_neg at h1
    have hg : 6/10 ≤ gx := by
      rw [hgx]
      refine le_trans (by linarith) (le_trans (le_max_left _ _) (le_max_right _ _))
    nlinarith [sq_nonneg gy, sq_nonneg (gx - 6/10), hg]

theorem score_pos_no_collision {p : FurniturePosition} {f : FurnitureSpec}
    {length width : ℚ} {doors : List Door} {existing : List PlacedFurniture}
    (h : 0 < scoreFurniturePosition p f length width doors existing) :
    (existing.any fun e =>
      decide (p.x < e.px + effW e + 6/10 ∧
        p.x + (effDims f.fwidth f.fdepth p.rot).1 + 6/10 > e.px ∧
        p.y < e.py + effD e + 6/10 ∧
        p.y + (effDims f.fwidth f.fdepth p.rot).2 + 6/10 > e.py)) = false := by
  by_contra hcol
  rw [Bool.not_eq_false] at hcol
  have hzero : scoreFurniturePosition p f length width doors existing = 0 := by
    unfold scoreFurniturePosition
    by_cases hb : p.x + (effDims f.fwidth f.fdepth p.rot).1 > width ∨
        p.y + (effDims f.fwidth f.fdepth p.rot).2 > length
    · rw [if_pos hb]
    · rw [if_neg hb, if_pos hcol]
  rw [hzero] at h
  exact absurd h (by norm_num)

theorem score_pos_separation {p : FurniturePosition} {f : FurnitureSpec}
    {length width : ℚ} {doors : List Door} {existing : List PlacedFurniture}
    (h : 0 < scoreFurniturePosition p f length width doors existing) :
    ∀ e ∈ existing, (6/10 : ℚ) ^ 2 ≤ furnitureDistSq (place f p) e := by
  intro e he
  have hany := score_pos_no_collision h
  rw [List.any_eq_false] at hany
  have hne := hany e he
  rw [decide_eq_true_eq] at hne
  have hsep := separation_of_no_overlap hne
  have hshape : furnitureDistSq (place f p) e =
      (max 0 (max (p.x - (e.px + effW e)) (e.px - (p.x + (effDims f.fwidth f.fdepth p.rot).1)))) ^ 2 +
      (max 0 (max (p.y - (e.py + effD e)) (e.py - (p.y + (effDims f.fwidth f.fdepth p.rot).2)))) ^ 2 := by
    simp only [furnitureDistSq, gapX, gapY, place, effW, effD]
  rw [hshape]
  exact hsep

theorem layoutAux_nil (length width : ℚ) (doors : List Door)
    (placed : List PlacedFurniture) :
    layoutAux length width doors placed [] = placed := rfl

theorem layoutAux_cons_skip {length width : ℚ} {doors : List Door}
    {placed : List PlacedFurniture} {f : FurnitureSpec} {rest : List FurnitureSpec}
    (h : f.minRoomWidth > width) :
    layoutAux length width doors placed (f :: rest) =
      layoutAux length width doors placed rest := by
  conv_lhs => rw [layoutAux]
  rw [if_pos h]

theorem layoutAux_cons_some {length width : ℚ} {doors : List Door}
    {placed : List PlacedFurniture} {f : FurnitureSpec} {rest : List FurnitureSpec}
    {p : FurniturePosition}
    (h1 : ¬ f.minRoomWidth > width)
    (h2 : findOptimalFurniturePosition f length width doors placed = some p) :
    layoutAux length width doors placed (f :: rest) =
      layoutAux length width doors (placed ++ [place f p]) rest := by
  conv_lhs => rw [layoutAux]
  rw [if_neg h1, h2]

theorem layoutAux_cons_none {length width : ℚ} {doors : List Door}
    {placed : List PlacedFurniture} {f : FurnitureSpec} {rest : List FurnitureSpec}
    (h1 : ¬ f.minRoomWidth > width)
    (h2 : findOptimalFurniturePosition f length width doors placed = none) :
    layoutAux length width doors placed (f :: rest) =
      layoutAux length width doors placed rest := by
  conv_lhs => rw [layoutAux]
  rw [if_neg h1, h2]

theorem layoutAux_filter_minRoomWidth (length width : ℚ) (doors : List Door) :
    ∀ (items : List FurnitureSpec) (placed : List PlacedFurniture),
      layoutAux length width doors placed items =
        layoutAux length width doors placed
          (items.filter fun f => decide (f.minRoomWidth ≤ width)) := by
  intro items
  induction items with
  | nil => intro placed; rfl
  | cons f rest ih =>
    intro placed
    by_cases hskip : f.minRoomWidth > width
    · rw [layoutAux_cons_skip hskip, ih placed, List.filter_cons,
        if_neg (by simpa using not_le.mpr hskip)]
    · rw [List.filter_cons, if_pos (by simpa using not_lt.mp hskip)]
      cases hfind : findOptimalFurniturePosition f length width doors placed with
      | none => rw [layoutAux_cons_none hskip hfind, layoutAux_cons_none hskip hfind, ih placed]
      | some p => rw [layoutAux_cons_some hskip hfind, layoutAux_cons_some hskip hfind, ih]

theorem layoutAux_invariant (length width : ℚ) (doors : List Door) :
    ∀ (items : List FurnitureSpec) (placed : List PlacedFurniture),
      (∀ g ∈ placed, 1/2 ≤ g.px ∧ 1/2 ≤ g.py ∧
        g.px + effW g ≤ width - 1/2 ∧ g.py + effD g ≤ length - 1/2) →
      placed.Pairwise (fun a b => (6/10 : ℚ) ^ 2 ≤ furnitureDistSq a b) →
      ((∀ g ∈ layoutAux length width doors placed items, 1/2 ≤ g.px ∧ 1/2 ≤ g.py ∧
          g.px + effW g ≤ width - 1/2 ∧ g.py + effD g ≤ length - 1/2) ∧
        (layoutAux length width doors placed items).Pairwise
          (fun a b => (6/10 : ℚ) ^ 2 ≤ furnitureDistSq a b)) := by
  intro items
  induction items with
  | nil => intro placed h1 h2; exact ⟨h1, h2⟩
  | cons f rest ih =>
    intro placed h1 h2
    by_cases hskip : f.minRoomWidth > width
    · rw [layoutAux_cons_skip hskip]
      exact ih placed h1 h2
    · cases hfind : findOptimalFurniturePosition f length width doors placed with
      | none =>
        rw [layoutAux_cons_none hskip hfind]
        exact ih placed h1 h2
      | some p =>
        rw [layoutAux_cons_some hskip hfind]
        obtain ⟨hmem, hscore⟩ := findOptimal_some_spec hfind
        have hmarg := positionsToTry_margins hmem
        apply ih
        · intro g hg
          rcases List.mem_append.mp hg with hg | hg
          · exact h1 g hg
          · rw [List.mem_singleton] at hg
            subst hg
            exact ⟨hmarg.1, hmarg.2.1, le_of_lt hmarg.2.2.1, le_of_lt hmarg.2.2.2⟩
        · rw [List.pairwise_append]
          refine ⟨h2, List.pairwise_singleton _ _, ?_⟩
          intro a ha b hb
          rw [List.mem_singleton] at hb
          subst hb
          have := score_pos_separation hscore a ha
          rwa [furnitureDistSq_comm] at this

theorem flatMap_ite_singleton {α β : Type} (l : List α) (p : α → Prop)
    [DecidablePred p] (f : α → β) :
    (l.flatMap fun a => if p a then [f a] else []) =
      l.filterMap fun a => if p a then some (f a) else none := by
  induction l with
  | nil => rfl
  | cons a t ih => by_cases h : p a <;> simp [h, ih]

theorem filterMap_flatMap_general {α β γ : Type} (l : List α) (f : α → List β)
    (g : β → Option γ) :
    (l.flatMap f).filterMap g = l.flatMap fun a => (f a).filterMap g := by
  induction l with
  | nil => rfl
  | cons a t ih => simp [List.flatMap_cons, List.filterMap_append, ih]

theorem length_filterMap_ite {α β : Type} (l : List α) (p : α → Prop)
    [DecidablePred p] (f : α → β) :
    (l.filterMap fun a => if p a then some (f a) else none).length =
      (l.filter fun a => decide (p a)).length := by
  induction l with
  | nil => rfl
  | cons a t ih => by_cases h : p a <;> simp [h, ih]

theorem mem_drop_range (m k j : ℕ) : j ∈ (List.range k).drop m ↔ m ≤ j ∧ j < k := by
  simp [List.mem_iff_getElem]
  constructor
  · rintro ⟨i, hi, rfl⟩
    omega
  · rintro ⟨h1, h2⟩
    exact ⟨j - m, by omega, by omega⟩

theorem checkFurnitureSpacing_eq_indexPairs (layout : List PlacedFurniture) :
    checkFurnitureSpacing layout =
      (indexPairs layout.length).filterMap (fun ij =>
        if furnitureDistSq (layout.getD ij.1 default) (layout.getD ij.2 default) <
            (6/10) ^ 2 then
          some (spacingMessage (layout.getD ij.1 default) (layout.getD ij.2 default))
        else none) := by
  unfold checkFurnitureSpacing indexPairs
  rw [filterMap_flatMap_general]
  refine List.flatMap_congr ?_
  intro i _
  rw [List.filterMap_map]
  rw [flatMap_ite_singleton ((List.range layout.length).drop (i + 1))
    (fun j => furnitureDistSq (layout.getD i default) (layout.getD j default) < (6/10) ^ 2)
    (fun j => spacingMessage (layout.getD i default) (layout.getD j default))]
  rfl

theorem indexPairs_nodup (n : ℕ) : (indexPairs n).Nodup := by
  unfold indexPairs
  rw [List.nodup_flatMap]
  constructor
  · intro i _
    exact ((List.nodup_range n).sublist (List.drop_sublist _ _)).map
      (fun a b h => by simpa using congrArg Prod.snd h)
  · refine (List.nodup_range n).imp ?_
    intro i1 i2 hne
    simp only [Function.onFun]
    intro p hp1 hp2
    simp only [List.mem_map] at hp1 hp2
    obtain ⟨j1, _, rfl⟩ := hp1
    obtain ⟨j2, _, h2⟩ := hp2
    have hfst : i2 = i1 := by simpa using congrArg Prod.fst h2
    exact hne hfst.symm

theorem mem_indexPairs (n i j : ℕ) : (i, j) ∈ indexPairs n ↔ i < j ∧ j < n := by
  unfold indexPairs
  simp only [List.mem_flatMap, List.mem_map, List.mem_range, Prod.mk.injEq]
  constructor
  · rintro ⟨i0, hi0, j0, hj0, rfl, rfl⟩
    rw [mem_drop_range] at hj0
    exact ⟨by omega, hj0.2⟩
  · rintro ⟨hij, hjn⟩
    refine ⟨i, by omega, j, ?_, rfl, rfl⟩
    rw [mem_drop_range]
    omega

theorem walkwayViolations_nil (length width : ℚ) :
    walkwayViolations length width [] = [] := by
  unfold walkwayViolations
  rw [if_neg]
  rintro ⟨htot, hlt⟩
  simp only [List.any_nil, Bool.false_eq_true, Finset.filter_False,
    Finset.card_empty, Nat.sub_zero] at hlt
  rw [div_self (by exact_mod_cast htot)] at hlt
  norm_num at hlt

theorem checkDoorClearances_nil (doors : List Door) :
    checkDoorClearances [] doors = [] := by
  unfold checkDoorClearances
  simp

theorem checkFurnitureSpacing_nil : checkFurnitureSpacing [] = [] := rfl

theorem utilizationRatio_nil (length width : ℚ) :
    utilizationRatio length width [] = 0 := by
  unfold utilizationRatio
  simp

/-! Concrete placement-search evaluations for the scenario rooms,
evaluated column by column. -/

theorem best_cabinets_28 :
    bestCandidate ⟨"cabinets", 6/10, 6/10, 1, 0⟩ 4 (28/10) []
      ([] : List PlacedFurniture) =
      (some ⟨7/10, 7/10, 0⟩, 110) := by
  rw [bestCandidate_eq_columns ⟨"cabinets", 6/10, 6/10, 1, 0⟩ 4 (28/10) []
    ([] : List PlacedFurniture)
    [1/2, 7/10, 9/10, 11/10, 13/10, 3/2] (by with_unfolding_all decide)]
  have h0 : columnStep ⟨"cabinets", 6/10, 6/10, 1, 0⟩ 4 (28/10) []
      ([] : List PlacedFurniture)
      (none, -1) (1/2) = (some ⟨1/2, 1/2, 0⟩, 100) := by
    with_unfolding_all decide
  have h1 : columnStep ⟨"cabinets", 6/10, 6/10, 1, 0⟩ 4 (28/10) []
      ([] : List PlacedFurniture)
      (some ⟨1/2, 1/2, 0⟩, 100) (7/10) = (some ⟨7/10, 7/10, 0⟩, 110) := by
    with_unfolding_all decide
  have h2 : columnStep ⟨"cabinets", 6/10, 6/10, 1, 0⟩ 4 (28/10) []
      ([] : List PlacedFurniture)
      (some ⟨7/10, 7/10, 0⟩, 110) (9/10) = (some ⟨7/10, 7/10, 0⟩, 110) := by
    with_unfolding_all decide
  have h3 : columnStep ⟨"cabinets", 6/10, 6/10, 1, 0⟩ 4 (28/10) []
      ([] : List PlacedFurniture)
      (some ⟨7/10, 7/10, 0⟩, 110) (11/10) = (some ⟨7/10, 7/10, 0⟩, 110) := by
    with_unfolding_all decide
  have h4 : columnStep ⟨"cabinets", 6/10, 6/10, 1, 0⟩ 4 (28/10) []
      ([] : List PlacedFurniture)
      (some ⟨7/10, 7/10, 0⟩, 110) (13/10) = (some ⟨7/10, 7/10, 0⟩, 110) := by
    with_unfolding_all decide
  have h5 : columnStep ⟨"cabinets", 6/10, 6/10, 1, 0⟩ 4 (28/10) []
      ([] : List PlacedFurniture)
      (some ⟨7/10, 7/10, 0⟩, 110) (3/2) = (some ⟨7/10, 7/10, 0⟩, 110) := by
    with_unfolding_all decide
  rw [List.foldl_cons,
    h0,
    List.foldl_cons,
    h1,
    List.foldl_cons,
    h2,
    List.foldl_cons,
    h3,
    List.foldl_cons,
    h4,
    List.foldl_cons,
    h5,
    List.foldl_nil]

theorem best_appliances_28 :
    bestCandidate ⟨"appliances", 6/10, 6/10, 1, 0⟩ 4 (28/10) []
      [⟨"cabinets", 6/10, 6/10, 7/10, 7/10, 0⟩] =
      (some ⟨7/10, 19/10, 0⟩, 110) := by
  rw [bestCandidate_eq_columns ⟨"appliances", 6/10, 6/10, 1, 0⟩ 4 (28/10) []
    [⟨"cabinets", 6/10, 6/10, 7/10, 7/10, 0⟩]
    [1/2, 7/10, 9/10, 11/10, 13/10, 3/2] (by with_unfolding_all decide)]
  have h0 : columnStep ⟨"appliances", 6/10, 6/10, 1, 0⟩ 4 (28/10) []
      [⟨"cabinets", 6/10, 6/10, 7/10, 7/10, 0⟩]
      (none, -1) (1/2) = (some ⟨1/2, 19/10, 0⟩, 100) := by
    with_unfolding_all decide
  have h1 : columnStep ⟨"appliances", 6/10, 6/10, 1, 0⟩ 4 (28/10) []
      [⟨"cabinets", 6/10, 6/10, 7/10, 7/10, 0⟩]
      (some ⟨1/2, 19/10, 0⟩, 100) (7/10) = (some ⟨7/10, 19/10, 0⟩, 110) := by
    with_unfolding_all decide
  have h2 : columnStep ⟨"appliances", 6/10, 6/10, 1, 0⟩ 4 (28/10) []
      [⟨"cabinets", 6/10, 6/10, 7/10, 7/10, 0⟩]
      (some ⟨7/10, 19/10, 0⟩, 110) (9/10) = (some ⟨7/10, 19/10, 0⟩, 110) := by
    with_unfolding_all decide
  have h3 : columnStep ⟨"appliances", 6/10, 6/10, 1, 0⟩ 4 (28/10) []
      [⟨"cabinets", 6/10, 6/10, 7/10, 7/10, 0⟩]
      (some ⟨7/10, 19/10, 0⟩, 110) (11/10) = (some ⟨7/10, 19/10, 0⟩, 110) := by
    with_unfolding_all decide
  have h4 : columnStep ⟨"appliances", 6/10, 6/10, 1, 0⟩ 4 (28/10) []
      [⟨"cabinets", 6/10, 6/10, 7/10, 7/10, 0⟩]
      (some ⟨7/10, 19/10, 0⟩, 110) (13/10) = (some ⟨7/10, 19/10, 0⟩, 110) := by
    with_unfolding_all decide
  have h5 : columnStep ⟨"appliances", 6/10, 6/10, 1, 0⟩ 4 (28/10) []
      [⟨"cabinets", 6/10, 6/10, 7/10, 7/10, 0⟩]
      (some ⟨7/10, 19/10, 0⟩, 110) (3/2) = (some ⟨7/10, 19/10, 0⟩, 110) := by
    with_unfolding_all decide
  rw [List.foldl_cons,
    h0,
    List.foldl_cons,
    h1,
    List.foldl_cons,
    h2,
    List.foldl_cons,
    h3,
    List.foldl_cons,
    h4,
    List.foldl_cons,
    h5,
    List.foldl_nil]

theorem best_cabinets_45 :
    bestCandidate ⟨"cabinets", 6/10, 6/10, 1, 0⟩ 5 (45/10) []
      ([] : List PlacedFurniture) =
      (some ⟨7/10, 7/10, 0⟩, 110) := by
  rw [bestCandidate_eq_columns ⟨"cabinets", 6/10, 6/10, 1, 0⟩ 5 (45/10) []
    ([] : List PlacedFurniture)
    [1/2, 7/10, 9/10, 11/10, 13/10, 3/2, 17/10, 19/10, 21/10, 23/10, 5/2, 27/10, 29/10, 31/10, 33/10] (by with_unfolding_all decide)]
  have h0 : columnStep ⟨"cabinets", 6/10, 6/10, 1, 0⟩ 5 (45/10) []
      ([] : List PlacedFurniture)
      (none, -1) (1/2) = (some ⟨1/2, 1/2, 0⟩, 100) := by
    with_unfolding_all decide
  have h1 : columnStep ⟨"cabinets", 6/10, 6/10, 1, 0⟩ 5 (45/10) []
      ([] : List PlacedFurniture)
      (some ⟨1/2, 1/2, 0⟩, 100) (7/10) = (some ⟨7/10, 7/10, 0⟩, 110) := by
    with_unfolding_all decide
  have h2 : columnStep ⟨"cabinets", 6/10, 6/10, 1, 0⟩ 5 (45/10) []
      ([] : List PlacedFurniture)
      (some ⟨7/10, 7/10, 0⟩, 110) (9/10) = (some ⟨7/10, 7/10, 0⟩, 110) := by
    with_unfolding_all decide
  have h3 : columnStep ⟨"cabinets", 6/10, 6/10, 1, 0⟩ 5 (45/10) []
      ([] : List PlacedFurniture)
      (some ⟨7/10, 7/10, 0⟩, 110) (11/10) = (some ⟨7/10, 7/10, 0⟩, 110) := by
    with_unfolding_all decide
  have h4 : columnStep ⟨"cabinets", 6/10, 6/10, 1, 0⟩ 5 (45/10) []
      ([] : List PlacedFurniture)
      (some ⟨7/10, 7/10, 0⟩, 110) (13/10) = (some ⟨7/10, 7/10, 0⟩, 110) := by
    with_unfolding_all decide
  have h5 : columnStep ⟨"cabinets", 6/10, 6/10, 1, 0⟩ 5 (45/10) []
      ([] : List PlacedFurniture)
      (some ⟨7/10, 7/10, 0⟩, 110) (3/2) = (some ⟨7/10, 7/10, 0⟩, 110) := by
    with_unfolding_all decide
  have h6 : columnStep ⟨"cabinets", 6/10, 6/10, 1, 0⟩ 5 (45/10) []
      ([] : List PlacedFurniture)
      (some ⟨7/10, 7/10, 0⟩, 110) (17/10) = (some ⟨7/10, 7/10, 0⟩, 110) := by
    with_unfolding_all decide
  have h7 : columnStep ⟨"cabinets", 6/10, 6/10, 1, 0⟩ 5 (45/10) []
      ([] : List PlacedFurniture)
      (some ⟨7/10, 7/10, 0⟩, 110) (19/10) = (some ⟨7/10, 7/10, 0⟩, 110) := by
    with_unfolding_all decide
  have h8 : columnStep ⟨"cabinets", 6/10, 6/10, 1, 0⟩ 5 (45/10) []
      ([] : List PlacedFurniture)
      (some ⟨7/10, 7/10, 0⟩, 110) (21/10) = (some ⟨7/10, 7/10, 0⟩, 110) := by
    with_unfolding_all decide
  have h9 : columnStep ⟨"cabinets", 6/10, 6/10, 1, 0⟩ 5 (45/10) []
      ([] : List PlacedFurniture)
      (some ⟨7/10, 7/10, 0⟩, 110) (23/10) = (some ⟨7/10, 7/10, 0⟩, 110) := by
    with_unfolding_all decide
  have h10 : columnStep ⟨"cabinets", 6/10, 6/10, 1, 0⟩ 5 (45/10) []
      ([] : List PlacedFurniture)
      (some ⟨7/10, 7/10, 0⟩, 110) (5/2) = (some ⟨7/10, 7/10, 0⟩, 110) := by
    with_unfolding_all decide
  have h11 : columnStep ⟨"cabinets", 6/10, 6/10, 1, 0⟩ 5 (45/10) []
      ([] : List PlacedFurniture)
      (some ⟨7/10, 7/10, 0⟩, 110) (27/10) = (some ⟨7/10, 7/10, 0⟩, 110) := by
    with_unfolding_all decide
  have h12 : columnStep ⟨"cabinets", 6/10, 6/10, 1, 0⟩ 5 (45/10) []
      ([] : List PlacedFurniture)
      (some ⟨7/10, 7/10, 0⟩, 110) (29/10) = (some ⟨7/10, 7/10, 0⟩, 110) := by
    with_unfolding_all decide
  have h13 : columnStep ⟨"cabinets", 6/10, 6/10, 1, 0⟩ 5 (45/10) []
      ([] : List PlacedFurniture)
      (some ⟨7/10, 7/10, 0⟩, 110) (31/10) = (some ⟨7/10, 7/10, 0⟩, 110) := by
    with_unfolding_all decide
  have h14 : columnStep ⟨"cabinets", 6/10, 6/10, 1, 0⟩ 5 (45/10) []
      ([] : List PlacedFurniture)
      (some ⟨7/10, 7/10, 0⟩, 110) (33/10) = (some ⟨7/10, 7/10, 0⟩, 110) := by
    with_unfolding_all decide
  rw [List.foldl_cons,
    h0,
    List.foldl_cons,
    h1,
    List.foldl_cons,
    h2,
    List.foldl_cons,
    h3,
    List.foldl_cons,
    h4,
    List.foldl_cons,
    h5,
    List.foldl_cons,
    h6,
    List.foldl_cons,
    h7,
    List.foldl_cons,
    h8,
    List.foldl_cons,
    h9,
    List.foldl_cons,
    h10,
    List.foldl_cons,
    h11,
    List.foldl_cons,
    h12,
    List.foldl_cons,
    h13,
    List.foldl_cons,
    h14,
    List.foldl_nil]

theorem best_appliances_45 :
    bestCandidate ⟨"appliances", 6/10, 6/10, 1, 0⟩ 5 (45/10) []
      [⟨"cabinets", 6/10, 6/10, 7/10, 7/10, 0⟩] =
      (some ⟨7/10, 19/10, 0⟩, 110) := by
  rw [bestCandidate_eq_columns ⟨"appliances", 6/10, 6/10, 1, 0⟩ 5 (45/10) []
    [⟨"cabinets", 6/10, 6/10, 7/10, 7/10, 0⟩]
    [1/2, 7/10, 9/10, 11/10, 13/10, 3/2, 17/10, 19/10, 21/10, 23/10, 5/2, 27/10, 29/10, 31/10, 33/10] (by with_unfolding_all decide)]
  have h0 : columnStep ⟨"appliances", 6/10, 6/10, 1, 0⟩ 5 (45/10) []
      [⟨"cabinets", 6/10, 6/10, 7/10, 7/10, 0⟩]
      (none, -1) (1/2) = (some ⟨1/2, 19/10, 0⟩, 100) := by
    with_unfolding_all decide
  have h1 : columnStep ⟨"appliances", 6/10, 6/10, 1, 0⟩ 5 (45/10) []
      [⟨"cabinets", 6/10, 6/10, 7/10, 7/10, 0⟩]
      (some ⟨1/2, 19/10, 0⟩, 100) (7/10) = (some ⟨7/10, 19/10, 0⟩, 110) := by
    with_unfolding_all decide
  have h2 : columnStep ⟨"appliances", 6/10, 6/10, 1, 0⟩ 5 (45/10) []
      [⟨"cabinets", 6/10, 6/10, 7/10, 7/10, 0⟩]
      (some ⟨7/10, 19/10, 0⟩, 110) (9/10) = (some ⟨7/10, 19/10, 0⟩, 110) := by
    with_unfolding_all decide
  have h3 : columnStep ⟨"appliances", 6/10, 6/10, 1, 0⟩ 5 (45/10) []
      [⟨"cabinets", 6/10, 6/10, 7/10, 7/10, 0⟩]
      (some ⟨7/10, 19/10, 0⟩, 110) (11/10) = (some ⟨7/10, 19/10, 0⟩, 110) := by
    with_unfolding_all decide
  have h4 : columnStep ⟨"appliances", 6/10, 6/10, 1, 0⟩ 5 (45/10) []
      [⟨"cabinets", 6/10, 6/10, 7/10, 7/10, 0⟩]
      (some ⟨7/10, 19/10, 0⟩, 110) (13/10) = (some ⟨7/10, 19/10, 0⟩, 110) := by
    with_unfolding_all decide
  have h5 : columnStep ⟨"appliances", 6/10, 6/10, 1, 0⟩ 5 (45/10) []
      [⟨"cabinets", 6/10, 6/10, 7/10, 7/10, 0⟩]
      (some ⟨7/10, 19/10, 0⟩, 110) (3/2) = (some ⟨7/10, 19/10, 0⟩, 110) := by
    with_unfolding_all decide
  have h6 : columnStep ⟨"appliances", 6/10, 6/10, 1, 0⟩ 5 (45/10) []
      [⟨"cabinets", 6/10, 6/10, 7/10, 7/10, 0⟩]
      (some ⟨7/10, 19/10, 0⟩, 110) (17/10) = (some ⟨7/10, 19/10, 0⟩, 110) := by
    with_unfolding_all decide
  have h7 : columnStep ⟨"appliances", 6/10, 6/10, 1, 0⟩ 5 (45/10) []
      [⟨"cabinets", 6/10, 6/10, 7/10, 7/10, 0⟩]
      (some ⟨7/10, 19/10, 0⟩, 110) (19/10) = (some ⟨7/10, 19/10, 0⟩, 110) := by
    with_unfolding_all decide
  have h8 : columnStep ⟨"appliances", 6/10, 6/10, 1, 0⟩ 5 (45/10) []
      [⟨"cabinets", 6/10, 6/10, 7/10, 7/10, 0⟩]
      (some ⟨7/10, 19/10, 0⟩, 110) (21/10) = (some ⟨7/10, 19/10, 0⟩, 110) := by
    with_unfolding_all decide
  have h9 : columnStep ⟨"appliances", 6/10, 6/10, 1, 0⟩ 5 (45/10) []
      [⟨"cabinets", 6/10, 6/10, 7/10, 7/10, 0⟩]
      (some ⟨7/10, 19/10, 0⟩, 110) (23/10) = (some ⟨7/10, 19/10, 0⟩, 110) := by
    with_unfolding_all decide
  have h10 : columnStep ⟨"appliances", 6/10, 6/10, 1, 0⟩ 5 (45/10) []
      [⟨"cabinets", 6/10, 6/10, 7/10, 7/10, 0⟩]
      (some ⟨7/10, 19/10, 0⟩, 110) (5/2) = (some ⟨7/10, 19/10, 0⟩, 110) := by
    with_unfolding_all decide
  have h11 : columnStep ⟨"appliances", 6/10, 6/10, 1, 0⟩ 5 (45/10) []
      [⟨"cabinets", 6/10, 6/10, 7/10, 7/10, 0⟩]
      (some ⟨7/10, 19/10, 0⟩, 110) (27/10) = (some ⟨7/10, 19/10, 0⟩, 110) := by
    with_unfolding_all decide
  have h12 : columnStep ⟨"appliances", 6/10, 6/10, 1, 0⟩ 5 (45/10) []
      [⟨"cabinets", 6/10, 6/10, 7/10, 7/10, 0⟩]
      (some ⟨7/10, 19/10, 0⟩, 110) (29/10) = (some ⟨7/10, 19/10, 0⟩, 110) := by
    with_unfolding_all decide
  have h13 : columnStep ⟨"appliances", 6/10, 6/10, 1, 0⟩ 5 (45/10) []
      [⟨"cabinets", 6/10, 6/10, 7/10, 7/10, 0⟩]
      (some ⟨7/10, 19/10, 0⟩, 110) (31/10) = (some ⟨7/10, 19/10, 0⟩, 110) := by
    with_unfolding_all decide
  have h14 : columnStep ⟨"appliances", 6/10, 6/10, 1, 0⟩ 5 (45/10) []
      [⟨"cabinets", 6/10, 6/10, 7/10, 7/10, 0⟩]
      (some ⟨7/10, 19/10, 0⟩, 110) (33/10) = (some ⟨7/10, 19/10, 0⟩, 110) := by
    with_unfolding_all decide
  rw [List.foldl_cons,
    h0,
    List.foldl_cons,
    h1,
    List.foldl_cons,
    h2,
    List.foldl_cons,
    h3,
    List.foldl_cons,
    h4,
    List.foldl_cons,
    h5,
    List.foldl_cons,
    h6,
    List.foldl_cons,
    h7,
    List.foldl_cons,
    h8,
    List.foldl_cons,
    h9,
    List.foldl_cons,
    h10,
    List.foldl_cons,
    h11,
    List.foldl_cons,
    h12,
    List.foldl_cons,
    h13,
    List.foldl_cons,
    h14,
    List.foldl_nil]

theorem best_island_45 :
    bestCandidate ⟨"island", 2, 1, 2, 37/10⟩ 5 (45/10) []
      [⟨"cabinets", 6/10, 6/10, 7/10, 7/10, 0⟩, ⟨"appliances", 6/10, 6/10, 7/10, 19/10, 0⟩] =
      (some ⟨19/10, 11/10, 90⟩, 140) := by
  rw [bestCandidate_eq_columns ⟨"island", 2, 1, 2, 37/10⟩ 5 (45/10) []
    [⟨"cabinets", 6/10, 6/10, 7/10, 7/10, 0⟩, ⟨"appliances", 6/10, 6/10, 7/10, 19/10, 0⟩]
    [1/2, 7/10, 9/10, 11/10, 13/10, 3/2, 17/10, 19/10] (by with_unfolding_all decide)]
  have h0 : columnStep ⟨"island", 2, 1, 2, 37/10⟩ 5 (45/10) []
      [⟨"cabinets", 6/10, 6/10, 7/10, 7/10, 0⟩, ⟨"appliances", 6/10, 6/10, 7/10, 19/10, 0⟩]
      (none, -1) (1/2) = (some ⟨1/2, 31/10, 0⟩, 70) := by
    with_unfolding_all decide
  have h1 : columnStep ⟨"island", 2, 1, 2, 37/10⟩ 5 (45/10) []
      [⟨"cabinets", 6/10, 6/10, 7/10, 7/10, 0⟩, ⟨"appliances", 6/10, 6/10, 7/10, 19/10, 0⟩]
      (some ⟨1/2, 31/10, 0⟩, 70) (7/10) = (some ⟨7/10, 31/10, 0⟩, 80) := by
    with_unfolding_all decide
  have h2 : columnStep ⟨"island", 2, 1, 2, 37/10⟩ 5 (45/10) []
      [⟨"cabinets", 6/10, 6/10, 7/10, 7/10, 0⟩, ⟨"appliances", 6/10, 6/10, 7/10, 19/10, 0⟩]
      (some ⟨7/10, 31/10, 0⟩, 80) (9/10) = (some ⟨7/10, 31/10, 0⟩, 80) := by
    with_unfolding_all decide
  have h3 : columnStep ⟨"island", 2, 1, 2, 37/10⟩ 5 (45/10) []
      [⟨"cabinets", 6/10, 6/10, 7/10, 7/10, 0⟩, ⟨"appliances", 6/10, 6/10, 7/10, 19/10, 0⟩]
      (some ⟨7/10, 31/10, 0⟩, 80) (11/10) = (some ⟨7/10, 31/10, 0⟩, 80) := by
    with_unfolding_all decide
  have h4 : columnStep ⟨"island", 2, 1, 2, 37/10⟩ 5 (45/10) []
      [⟨"cabinets", 6/10, 6/10, 7/10, 7/10, 0⟩, ⟨"appliances", 6/10, 6/10, 7/10, 19/10, 0⟩]
      (some ⟨7/10, 31/10, 0⟩, 80) (13/10) = (some ⟨7/10, 31/10, 0⟩, 80) := by
    with_unfolding_all decide
  have h5 : columnStep ⟨"island", 2, 1, 2, 37/10⟩ 5 (45/10) []
      [⟨"cabinets", 6/10, 6/10, 7/10, 7/10, 0⟩, ⟨"appliances", 6/10, 6/10, 7/10, 19/10, 0⟩]
      (some ⟨7/10, 31/10, 0⟩, 80) (3/2) = (some ⟨7/10, 31/10, 0⟩, 80) := by
    with_unfolding_all decide
  have h6 : columnStep ⟨"island", 2, 1, 2, 37/10⟩ 5 (45/10) []
      [⟨"cabinets", 6/10, 6/10, 7/10, 7/10, 0⟩, ⟨"appliances", 6/10, 6/10, 7/10, 19/10, 0⟩]
      (some ⟨7/10, 31/10, 0⟩, 80) (17/10) = (some ⟨7/10, 31/10, 0⟩, 80) := by
    with_unfolding_all decide
  have h7 : columnStep ⟨"island", 2, 1, 2, 37/10⟩ 5 (45/10) []
      [⟨"cabinets", 6/10, 6/10, 7/10, 7/10, 0⟩, ⟨"appliances", 6/10, 6/10, 7/10, 19/10, 0⟩]
      (some ⟨7/10, 31/10, 0⟩, 80) (19/10) = (some ⟨19/10, 11/10, 90⟩, 140) := by
    with_unfolding_all decide
  rw [List.foldl_cons,
    h0,
    List.foldl_cons,
    h1,
    List.foldl_cons,
    h2,
    List.foldl_cons,
    h3,
    List.foldl_cons,
    h4,
    List.foldl_cons,
    h5,
    List.foldl_cons,
    h6,
    List.foldl_cons,
    h7,
    List.foldl_nil]

theorem findOpt_cab_28 :
    findOptimalFurniturePosition ⟨"cabinets", 6/10, 6/10, 1, 0⟩ 4 (28/10) []
      ([] : List PlacedFurniture) = some ⟨7/10, 7/10, 0⟩ := by
  simp only [findOptimalFurniturePosition, best_cabinets_28]
  norm_num

theorem findOpt_app_28 :
    findOptimalFurniturePosition ⟨"appliances", 6/10, 6/10, 1, 0⟩ 4 (28/10) []
      [⟨"cabinets", 6/10, 6/10, 7/10, 7/10, 0⟩] = some ⟨7/10, 19/10, 0⟩ := by
  simp only [findOptimalFurniturePosition, best_appliances_28]
  norm_num

theorem findOpt_cab_45 :
    findOptimalFurniturePosition ⟨"cabinets", 6/10, 6/10, 1, 0⟩ 5 (45/10) []
      ([] : List PlacedFurniture) = some ⟨7/10, 7/10, 0⟩ := by
  simp only [findOptimalFurniturePosition, best_cabinets_45]
  norm_num

theorem findOpt_app_45 :
    findOptimalFurniturePosition ⟨"appliances", 6/10, 6/10, 1, 0⟩ 5 (45/10) []
      [⟨"cabinets", 6/10, 6/10, 7/10, 7/10, 0⟩] = some ⟨7/10, 19/10, 0⟩ := by
  simp only [findOptimalFurniturePosition, best_appliances_45]
  norm_num

theorem findOpt_isl_45 :
    findOptimalFurniturePosition ⟨"island", 2, 1, 2, 37/10⟩ 5 (45/10) []
      [⟨"cabinets", 6/10, 6/10, 7/10, 7/10, 0⟩,
       ⟨"appliances", 6/10, 6/10, 7/10, 19/10, 0⟩] = some ⟨19/10, 11/10, 90⟩ := by
  simp only [findOptimalFurniturePosition, best_island_45]
  norm_num

theorem layout_28_eq :
    generateFurnitureLayout 4 (28/10) [] [] [] "kitchen" =
      [⟨"cabinets", 6/10, 6/10, 7/10, 7/10, 0⟩,
       ⟨"appliances", 6/10, 6/10, 7/10, 19/10, 0⟩] := by
  have h0 : generateFurnitureLayout 4 (28/10) [] [] [] "kitchen" =
      layoutAux 4 (28/10) [] []
        [⟨"cabinets", 6/10, 6/10, 1, 0⟩, ⟨"appliances", 6/10, 6/10, 1, 0⟩,
         ⟨"island", 2, 1, 2, 37/10⟩] := by
    simp only [generateFurnitureLayout]
    congr 1
    with_unfolding_all decide
  rw [h0]
  have hns1 : ¬ (⟨"cabinets", 6/10, 6/10, 1, 0⟩ : FurnitureSpec).minRoomWidth > 28/10 := by
    show ¬ (0 : ℚ) > 28/10
    norm_num
  rw [layoutAux_cons_some hns1 findOpt_cab_28]
  show layoutAux 4 (28/10) [] [⟨"cabinets", 6/10, 6/10, 7/10, 7/10, 0⟩]
    [⟨"appliances", 6/10, 6/10, 1, 0⟩, ⟨"island", 2, 1, 2, 37/10⟩] = _
  have hns2 : ¬ (⟨"appliances", 6/10, 6/10, 1, 0⟩ : FurnitureSpec).minRoomWidth > 28/10 := by
    show ¬ (0 : ℚ) > 28/10
    norm_num
  rw [layoutAux_cons_some hns2 findOpt_app_28]
  show layoutAux 4 (28/10) []
    [⟨"cabinets", 6/10, 6/10, 7/10, 7/10, 0⟩, ⟨"appliances", 6/10, 6/10, 7/10, 19/10, 0⟩]
    [⟨"island", 2, 1, 2, 37/10⟩] = _
  have hsk : (⟨"island", 2, 1, 2, 37/10⟩ : FurnitureSpec).minRoomWidth > 28/10 := by
    show (37/10 : ℚ) > 28/10
    norm_num
  rw [layoutAux_cons_skip hsk, layoutAux_nil]

theorem layout_45_eq :
    generateFurnitureLayout 5 (45/10) [] [] [] "kitchen" =
      [⟨"cabinets", 6/10, 6/10, 7/10, 7/10, 0⟩,
       ⟨"appliances", 6/10, 6/10, 7/10, 19/10, 0⟩,
       ⟨"island", 2, 1, 19/10, 11/10, 90⟩] := by
  have h0 : generateFurnitureLayout 5 (45/10) [] [] [] "kitchen" =
      layoutAux 5 (45/10) [] []
        [⟨"cabinets", 6/10, 6/10, 1, 0⟩, ⟨"appliances", 6/10, 6/10, 1, 0⟩,
         ⟨"island", 2, 1, 2, 37/10⟩] := by
    simp only [generateFurnitureLayout]
    congr 1
    with_unfolding_all decide
  rw [h0]
  have hns1 : ¬ (⟨"cabinets", 6/10, 6/10, 1, 0⟩ : FurnitureSpec).minRoomWidth > 45/10 := by
    show ¬ (0 : ℚ) > 45/10
    norm_num
  rw [layoutAux_cons_some hns1 findOpt_cab_45]
  show layoutAux 5 (45/10) [] [⟨"cabinets", 6/10, 6/10, 7/10, 7/10, 0⟩]
    [⟨"appliances", 6/10, 6/10, 1, 0⟩, ⟨"island", 2, 1, 2, 37/10⟩] = _
  have hns2 : ¬ (⟨"appliances", 6/10, 6/10, 1, 0⟩ : FurnitureSpec).minRoomWidth > 45/10 := by
    show ¬ (0 : ℚ) > 45/10
    norm_num
  rw [layoutAux_cons_some hns2 findOpt_app_45]
  show layoutAux 5 (45/10) []
    [⟨"cabinets", 6/10, 6/10, 7/10, 7/10, 0⟩, ⟨"appliances", 6/10, 6/10, 7/10, 19/10, 0⟩]
    [⟨"island", 2, 1, 2, 37/10⟩] = _
  have hns3 : ¬ (⟨"island", 2, 1, 2, 37/10⟩ : FurnitureSpec).minRoomWidth > 45/10 := by
    show ¬ (37/10 : ℚ) > 45/10
    norm_num
  rw [layoutAux_cons_some hns3 findOpt_isl_45]
  show layoutAux 5 (45/10) []
    [⟨"cabinets", 6/10, 6/10, 7/10, 7/10, 0⟩, ⟨"appliances", 6/10, 6/10, 7/10, 19/10, 0⟩,
     ⟨"island", 2, 1, 19/10, 11/10, 90⟩]
    ([] : List FurnitureSpec) = _
  rw [layoutAux_nil]

theorem island_score_structure (p : FurniturePosition) (f : FurnitureSpec)
    (length width : ℚ) (doors : List Door) (existing : List PlacedFurniture)
    (hty : f.ftype = "island")
    (hb : ¬ (p.x + (effDims f.fwidth f.fdepth p.rot).1 > width ∨
             p.y + (effDims f.fwidth f.fdepth p.rot).2 > length))
    (hcol : (existing.any fun e =>
      decide (p.x < e.px + effW e + 6/10 ∧
        p.x + (effDims f.fwidth f.fdepth p.rot).1 + 6/10 > e.px ∧
        p.y < e.py + effD e + 6/10 ∧
        p.y + (effDims f.fwidth f.fdepth p.rot).2 + 6/10 > e.py)) = false) :
    scoreFurniturePosition p f length width doors existing =
      scoreBase p f length width doors +
        (if islandStrictClearance p f length width then 30 else -30) := by
  simp only [scoreFurniturePosition, scoreBase, islandStrictClearance]
  rw [if_neg hb]
  have hcol2 : ¬ ((existing.any fun e =>
      decide (p.x < e.px + effW e + 6/10 ∧
        p.x + (effDims f.fwidth f.fdepth p.rot).1 + 6/10 > e.px ∧
        p.y < e.py + effD e + 6/10 ∧
        p.y + (effDims f.fwidth f.fdepth p.rot).2 + 6/10 > e.py)) = true) := by
    rw [hcol]
    simp
  rw [if_neg hcol2, hty]
  rw [if_neg (by decide : ¬ ("island" : String) = "sofa"), if_pos rfl]
  split_ifs <;> ring

theorem determineLayoutType_eq_ref (w l : ℚ) :
    determineLayoutType w l = layoutTypeSpecRef w := by
  unfold determineLayoutType layoutTypeSpecRef
  rcases le_or_lt w 3 with h | h
  · rw [if_pos h, if_pos h]
  · have h1 : ¬ w ≤ 3 := not_le.mpr h
    have h2 : ¬ w < 24/10 := by push_neg; linarith
    have h3 : ¬ (24/10 ≤ w ∧ w < 3) := by rintro ⟨hc1, hc2⟩; linarith
    rw [if_neg h1, if_neg h2, if_neg h3, if_neg h1]
    rcases lt_or_le w (37/10) with h4 | h4
    · rw [if_pos ⟨le_of_lt h, h4⟩, if_pos h4]
    · have h5 : ¬ (3 ≤ w ∧ w < 37/10) := by rintro ⟨hc1, hc2⟩; linarith
      rw [if_neg h5, if_pos h4, if_neg (not_lt.mpr h4)]

end Renova

/-! ## Claim C2 -/

/-- C2: `_determine_layout_type` is a pure total function of width (the
length argument is ignored); for every positive width it agrees with the
piecewise reference (galley for width ≤ 3.0, u_shaped for
3.0 < width < 3.7, island for width ≥ 3.7), never returns single_wall or
l_shaped, and in particular maps 2.9 to galley, 3.5 to u_shaped and 4.0
to island. -/
theorem C2_layout_classifier :
    (∀ w l : ℚ, 0 < w → Renova.determineLayoutType w l = Renova.layoutTypeSpecRef w) ∧
    (∀ w l1 l2 : ℚ, Renova.determineLayoutType w l1 = Renova.determineLayoutType w l2) ∧
    (∀ w l : ℚ, 0 < w → Renova.determineLayoutType w l ≠ "single_wall" ∧
      Renova.determineLayoutType w l ≠ "l_shaped") ∧
    Renova.determineLayoutType (29/10) 4 = "galley" ∧
    Renova.determineLayoutType (35/10) 4 = "u_shaped" ∧
    Renova.determineLayoutType 4 4 = "island" := by
  refine ⟨?_, ?_, ?_, ?_, ?_, ?_⟩
  · intro w l _
    exact Renova.determineLayoutType_eq_ref w l
  · intro w l1 l2
    rfl
  · intro w l hw
    rw [Renova.determineLayoutType_eq_ref]
    unfold Renova.layoutTypeSpecRef
    split_ifs <;> exact ⟨by decide, by decide⟩
  · norm_num [Renova.determineLayoutType]
  · norm_num [Renova.determineLayoutType]
  · norm_num [Renova.determineLayoutType]

/-- Witness for C2 at width 2.9 (and the ignored length 4). -/
theorem C2_witness :
    0 < (29/10 : ℚ) ∧
      Renova.determineLayoutType (29/10) 4 = Renova.layoutTypeSpecRef (29/10) :=
  ⟨by norm_num, C2_layout_classifier.1 (29/10) 4 (by norm_num)⟩

/-! ## Claim C3 -/

/-- C3 counterexample: the claim that no two zones overlap fails on the
code.  At width 3.5, length 4.0 the classifier returns u_shaped, and the
u_shaped recipe's left-wall counter and back-wall counter overlap on the
corner square; the l_shaped recipe's two counters likewise overlap. -/
theorem C3_counterexample :
    Renova.determineLayoutType (35/10) 4 = "u_shaped" ∧
    Renova.generateFurnitureZones (35/10) 4 "u_shaped" =
      [⟨"counter", "left_wall", 0, 0, 6/10, 4⟩,
       ⟨"counter", "back_wall", 0, 0, 35/10, 6/10⟩,
       ⟨"counter", "right_wall", 29/10, 0, 6/10, 4⟩] ∧
    Renova.zonesOverlap ⟨"counter", "left_wall", 0, 0, 6/10, 4⟩
      ⟨"counter", "back_wall", 0, 0, 35/10, 6/10⟩ ∧
    Renova.generateFurnitureZones (24/10) 4 "l_shaped" =
      [⟨"counter", "main_wall", 0, 0, 6/10, 4⟩,
       ⟨"counter", "side_wall", 0, 34/10, 36/25, 6/10⟩] ∧
    Renova.zonesOverlap ⟨"counter", "main_wall", 0, 0, 6/10, 4⟩
      ⟨"counter", "side_wall", 0, 34/10, 36/25, 6/10⟩ := by
  refine ⟨by norm_num [Renova.determineLayoutType], ?_, ?_, ?_, ?_⟩ <;>
    with_unfolding_all decide

/-- C3 (amended): the galley, single_wall and island zone recipes emit
pairwise non-overlapping zones (open interiors disjoint) for every room
width and length; the u_shaped and l_shaped recipes do not (their wall
counters share corner rectangles, see the counterexample). -/
theorem C3_zones_disjoint_amended :
    ∀ w l : ℚ,
      (Renova.generateFurnitureZones w l "galley").Pairwise
        (fun a b => ¬ Renova.zonesOverlap a b) ∧
      (Renova.generateFurnitureZones w l "single_wall").Pairwise
        (fun a b => ¬ Renova.zonesOverlap a b) ∧
      (Renova.generateFurnitureZones w l "island").Pairwise
        (fun a b => ¬ Renova.zonesOverlap a b) := by
  intro w l
  refine ⟨?_, ?_, ?_⟩
  · simpa [Renova.generateFurnitureZones] using
      Renova.galley_zones_pairwise_disjoint w l
  · simpa [Renova.generateFurnitureZones] using
      Renova.singleWall_zones_pairwise_disjoint w l
  · simpa [Renova.generateFurnitureZones] using
      Renova.island_zones_pairwise_disjoint w l

/-! ## Claim C10 -/

/-- C10: the minimum rectangle-to-rectangle distance of
`_calculate_furniture_distance` is symmetric and non-negative (stated for
the distance value `sqrt(dx^2+dy^2)` and for its square, so the per-pair
spacing verdict `distance < 0.6` does not depend on the enumeration
order of the pair). -/
theorem C10_distance_symmetric_nonneg :
    ∀ f1 f2 : Renova.PlacedFurniture,
      Renova.furnitureDistance f1 f2 = Renova.furnitureDistance f2 f1 ∧
      0 ≤ Renova.furnitureDistance f1 f2 ∧
      Renova.furnitureDistSq f1 f2 = Renova.furnitureDistSq f2 f1 ∧
      0 ≤ Renova.furnitureDistSq f1 f2 ∧
      ((Renova.furnitureDistSq f1 f2 < 9/25) ↔ (Renova.furnitureDistSq f2 f1 < 9/25)) := by
  intro f1 f2
  refine ⟨?_, Real.sqrt_nonneg _, Renova.furnitureDistSq_comm f1 f2,
    Renova.furnitureDistSq_nonneg f1 f2, by rw [Renova.furnitureDistSq_comm]⟩
  unfold Renova.furnitureDistance
  rw [Renova.furnitureDistSq_comm]

/-! ## Claim C6 -/

/-- C6 counterexample: the validation dict built and returned by
`_validate_spatial_requirements` has exactly the keys valid, warnings,
errors and recommendations; the utilization ratio is not among them, so
the claim that the report carries a numeric utilization field is false (at
every input, in particular the empty layout in a 4x5 room). -/
theorem C6_counterexample :
    Renova.validationResultKeys = ["valid", "warnings", "errors", "recommendations"] ∧
    "utilization" ∉ Renova.validationResultKeys := by
  exact ⟨rfl, by decide⟩

/-- C6 (amended): for every room with positive dimensions and an empty
furniture layout, `_validate_spatial_requirements` reports valid = true,
and the utilization ratio computed inside
`_generate_layout_recommendations` equals 0 — surfacing only as the
under-furnished recommendation, not as a report field. -/
theorem C6_empty_layout_amended :
    ∀ (length width : ℚ) (doors : List Renova.Door) (windows : List Renova.Window),
      0 < length → 0 < width →
      ((Renova.validateSpatialRequirements length width [] doors windows).valid = true ∧
       Renova.utilizationRatio length width [] = 0 ∧
       (Renova.validateSpatialRequirements length width [] doors windows).recommendations =
         ["Room appears under-furnished - consider adding more furniture pieces"]) := by
  intro length width doors windows _hl _hw
  refine ⟨?_, Renova.utilizationRatio_nil length width, ?_⟩
  · unfold Renova.validateSpatialRequirements
    simp [Renova.walkwayViolations_nil, Renova.checkDoorClearances_nil]
  · unfold Renova.validateSpatialRequirements Renova.generateLayoutRecommendations
    simp only [Renova.utilizationRatio_nil]
    norm_num

/-- Witness for C6 (amended) at a 5x4 room with no doors or windows. -/
theorem C6_witness :
    (0 : ℚ) < 5 ∧ (0 : ℚ) < 4 ∧
      ((Renova.validateSpatialRequirements 5 4 [] [] []).valid = true ∧
       Renova.utilizationRatio 5 4 [] = 0 ∧
       (Renova.validateSpatialRequirements 5 4 [] [] []).recommendations =
         ["Room appears under-furnished - consider adding more furniture pieces"]) :=
  ⟨by norm_num, by norm_num,
    C6_empty_layout_amended 5 4 [] [] (by norm_num) (by norm_num)⟩

/-! ## Claim C7 -/

/-- C7: `_check_furniture_spacing` emits exactly one warning per
unordered pair of placed items whose minimum rectangle distance is below
0.6m — the warning list is the image of the duplicate-free index-pair
list (containing each i < j exactly once) under the message builder,
which names both item types and the measured distance to one decimal
place; in particular two sofas 0.4m apart yield exactly the single
warning naming both sofas and 0.4m < 0.6m required. -/
theorem C7_spacing_warnings :
    (∀ layout : List Renova.PlacedFurniture,
      Renova.checkFurnitureSpacing layout =
        (Renova.indexPairs layout.length).filterMap (fun ij =>
          if Renova.furnitureDistSq (layout.getD ij.1 default)
              (layout.getD ij.2 default) < (6/10) ^ 2 then
            some (Renova.spacingMessage (layout.getD ij.1 default)
              (layout.getD ij.2 default))
          else none)) ∧
    (∀ n : ℕ, (Renova.indexPairs n).Nodup) ∧
    (∀ n i j : ℕ, (i, j) ∈ Renova.indexPairs n ↔ i < j ∧ j < n) ∧
    Renova.checkFurnitureSpacing
      [⟨"sofa", 22/10, 9/10, 1/2, 1/2, 0⟩, ⟨"sofa", 22/10, 9/10, 1/2, 9/5, 0⟩] =
      ["Insufficient spacing between sofa and sofa (0.4m < 0.6m required)"] ∧
    Renova.furnitureDistSq ⟨"sofa", 22/10, 9/10, 1/2, 1/2, 0⟩
      ⟨"sofa", 22/10, 9/10, 1/2, 9/5, 0⟩ = (4/10) ^ 2 :=
  ⟨Renova.checkFurnitureSpacing_eq_indexPairs, Renova.indexPairs_nodup,
   Renova.mem_indexPairs, by with_unfolding_all decide,
   by with_unfolding_all decide⟩

/-! ## Claim C1 -/

/-- C1: in every layout produced by `_generate_furniture_layout`, every
pair of distinct placed items has minimum rectangle-to-rectangle distance
at least 0.6m (stated on the squared distance: at least 0.36), and every
placed footprint, with rotation applied, lies within the
[0.5, dimension - 0.5] margins of the room on both axes. -/
theorem C1_placement_spacing_margins :
    ∀ (length width : ℚ) (doors : List Renova.Door) (windows : List Renova.Window)
      (reqs : List Renova.FurnitureSpec) (roomType : String),
      (∀ g ∈ Renova.generateFurnitureLayout length width doors windows reqs roomType,
        1/2 ≤ g.px ∧ 1/2 ≤ g.py ∧ g.px + Renova.effW g ≤ width - 1/2 ∧
          g.py + Renova.effD g ≤ length - 1/2) ∧
      (∀ i j : Fin (Renova.generateFurnitureLayout length width doors windows reqs
          roomType).length,
        i ≠ j →
        (6/10 : ℚ) ^ 2 ≤ Renova.furnitureDistSq
          ((Renova.generateFurnitureLayout length width doors windows reqs roomType).get i)
          ((Renova.generateFurnitureLayout length width doors windows reqs roomType).get j)) := by
  intro length width doors windows reqs roomType
  have hinv := Renova.layoutAux_invariant length width doors
    (Renova.sortByPriority
      (if reqs.isEmpty then Renova.standardFurniture roomType else reqs)) []
    (by intro g hg; exact absurd hg (List.not_mem_nil g)) List.Pairwise.nil
  have hform : Renova.generateFurnitureLayout length width doors windows reqs roomType =
      Renova.layoutAux length width doors []
        (Renova.sortByPriority
          (if reqs.isEmpty then Renova.standardFurniture roomType else reqs)) := rfl
  rw [hform]
  refine ⟨hinv.1, ?_⟩
  intro i j hij
  have hpw := hinv.2
  rw [List.pairwise_iff_get] at hpw
  rcases lt_or_gt_of_ne hij with h | h
  · exact hpw i j h
  · rw [Renova.furnitureDistSq_comm]
    exact hpw j i h

/-- Witness for C1: the cabinets placed in the 2.8m x 4.0m kitchen satisfy
the margin bounds. -/
theorem C1_witness :
    (⟨"cabinets", 6/10, 6/10, 7/10, 7/10, 0⟩ : Renova.PlacedFurniture) ∈
        Renova.generateFurnitureLayout 4 (28/10) [] [] [] "kitchen" ∧
      (1/2 ≤ (⟨"cabinets", 6/10, 6/10, 7/10, 7/10, 0⟩ : Renova.PlacedFurniture).px ∧
        1/2 ≤ (⟨"cabinets", 6/10, 6/10, 7/10, 7/10, 0⟩ : Renova.PlacedFurniture).py ∧
        (⟨"cabinets", 6/10, 6/10, 7/10, 7/10, 0⟩ : Renova.PlacedFurniture).px +
            Renova.effW ⟨"cabinets", 6/10, 6/10, 7/10, 7/10, 0⟩ ≤ 28/10 - 1/2 ∧
        (⟨"cabinets", 6/10, 6/10, 7/10, 7/10, 0⟩ : Renova.PlacedFurniture).py +
            Renova.effD ⟨"cabinets", 6/10, 6/10, 7/10, 7/10, 0⟩ ≤ 4 - 1/2) := by
  have hmem : (⟨"cabinets", 6/10, 6/10, 7/10, 7/10, 0⟩ : Renova.PlacedFurniture) ∈
      Renova.generateFurnitureLayout 4 (28/10) [] [] [] "kitchen" := by
    rw [Renova.layout_28_eq]
    with_unfolding_all decide
  exact ⟨hmem, (C1_placement_spacing_margins 4 (28/10) [] [] [] "kitchen").1 _ hmem⟩

/-! ## Claim C4 -/

/-- C4: items whose `min_room_width` exceeds the room width, and items
with no strictly-positive-scoring candidate, are silently omitted from the
layout while the remaining items are placed; concretely, the 2.8m x 4.0m
kitchen layout contains the cabinets and appliances but no island, even
though the kitchen catalog contains an island with min_room_width 3.7. -/
theorem C4_infeasible_silently_dropped :
    (∀ (length width : ℚ) (doors : List Renova.Door)
        (placed : List Renova.PlacedFurniture) (items : List Renova.FurnitureSpec),
        Renova.layoutAux length width doors placed items =
          Renova.layoutAux length width doors placed
            (items.filter fun f => decide (f.minRoomWidth ≤ width))) ∧
    (∀ (length width : ℚ) (doors : List Renova.Door)
        (placed : List Renova.PlacedFurniture) (f : Renova.FurnitureSpec)
        (rest : List Renova.FurnitureSpec),
        ¬ f.minRoomWidth > width →
        Renova.findOptimalFurniturePosition f length width doors placed = none →
        Renova.layoutAux length width doors placed (f :: rest) =
          Renova.layoutAux length width doors placed rest) ∧
    Renova.generateFurnitureLayout 4 (28/10) [] [] [] "kitchen" =
      [⟨"cabinets", 6/10, 6/10, 7/10, 7/10, 0⟩,
       ⟨"appliances", 6/10, 6/10, 7/10, 19/10, 0⟩] ∧
    (⟨"island", 2, 1, 2, 37/10⟩ : Renova.FurnitureSpec) ∈
      Renova.standardFurniture "kitchen" ∧
    (28/10 : ℚ) < (⟨"island", 2, 1, 2, 37/10⟩ : Renova.FurnitureSpec).minRoomWidth ∧
    (∀ g ∈ Renova.generateFurnitureLayout 4 (28/10) [] [] [] "kitchen",
      g.ftype ≠ "island") := by
  refine ⟨fun length width doors placed items =>
      Renova.layoutAux_filter_minRoomWidth length width doors items placed,
    fun length width doors placed f rest h1 h2 => Renova.layoutAux_cons_none h1 h2,
    Renova.layout_28_eq, by with_unfolding_all decide,
    by show (28/10 : ℚ) < 37/10; norm_num, ?_⟩
  intro g hg
  rw [Renova.layout_28_eq] at hg
  rcases List.mem_cons.mp hg with rfl | hg
  · decide
  · rw [List.mem_singleton] at hg
    subst hg
    decide

/-- Witness for C4: an island item that fits no candidate position in the
2.8m-wide room is dropped from the plan without error. -/
theorem C4_witness :
    ¬ (⟨"island", 2, 1, 2, 0⟩ : Renova.FurnitureSpec).minRoomWidth > 28/10 ∧
    Renova.findOptimalFurniturePosition ⟨"island", 2, 1, 2, 0⟩ 4 (28/10) [] [] = none ∧
    Renova.layoutAux 4 (28/10) [] [] [⟨"island", 2, 1, 2, 0⟩] =
      Renova.layoutAux 4 (28/10) [] [] [] := by
  have h1 : ¬ (⟨"island", 2, 1, 2, 0⟩ : Renova.FurnitureSpec).minRoomWidth > 28/10 := by
    show ¬ (0 : ℚ) > 28/10
    norm_num
  have h2 : Renova.findOptimalFurniturePosition ⟨"island", 2, 1, 2, 0⟩ 4 (28/10) [] [] =
      none := by
    with_unfolding_all decide
  exact ⟨h1, h2, C4_infeasible_silently_dropped.2.1 4 (28/10) [] [] _ [] h1 h2⟩

/-! ## Claim C9 -/

/-- C9 counterexample: the claim says the scorer adds 30 exactly when the
island has at least 1.0m clearance to all four edges.  The code uses
strict inequalities: the reachable grid candidate (1.1, 1.1) for a 2.0m x
1.0m island in a 4.1m-wide, 3.1m-long room has clearance exactly 1.0m on
the right and bottom edges (so at least 1.0m on all four), yet the scorer
subtracts 30, giving 80 instead of the 140 the claim would predict. -/
theorem C9_counterexample :
    (⟨11/10, 11/10, 0⟩ : Renova.FurniturePosition) ∈
      Renova.positionsToTry ⟨"island", 2, 1, 2, 37/10⟩ (31/10) (41/10) ∧
    1 ≤ (11/10 : ℚ) ∧ (11/10 : ℚ) + 2 ≤ 41/10 - 1 ∧
    1 ≤ (11/10 : ℚ) ∧ (11/10 : ℚ) + 1 ≤ 31/10 - 1 ∧
    Renova.scoreFurniturePosition ⟨11/10, 11/10, 0⟩ ⟨"island", 2, 1, 2, 37/10⟩
      (31/10) (41/10) [] [] = 80 ∧
    ¬ Renova.scoreFurniturePosition ⟨11/10, 11/10, 0⟩ ⟨"island", 2, 1, 2, 37/10⟩
      (31/10) (41/10) [] [] =
        Renova.scoreBase ⟨11/10, 11/10, 0⟩ ⟨"island", 2, 1, 2, 37/10⟩
          (31/10) (41/10) [] + 30 := by
  refine ⟨?_, ?_, ?_, ?_, ?_, ?_, ?_⟩ <;> with_unfolding_all decide

/-- C9 (amended): for an island-type item, a candidate that passes the
boundary and collision gates scores `base + 30` exactly when the strict
clearance test `x > 1.0 ∧ x + fw < width - 1.0 ∧ y > 1.0 ∧
y + fd < length - 1.0` holds, and `base - 30` otherwise; in the 4.5m x
5.0m kitchen the island is placed at (1.9, 1.1) rotated 90, its winning
candidate scores 140 which is at least 130, and that placement has at
least 1.0m clearance on all four sides. -/
theorem C9_island_bonus_amended :
    (∀ (p : Renova.FurniturePosition) (f : Renova.FurnitureSpec)
        (length width : ℚ) (doors : List Renova.Door)
        (existing : List Renova.PlacedFurniture),
        f.ftype = "island" →
        ¬ (p.x + (Renova.effDims f.fwidth f.fdepth p.rot).1 > width ∨
           p.y + (Renova.effDims f.fwidth f.fdepth p.rot).2 > length) →
        (existing.any fun e =>
          decide (p.x < e.px + Renova.effW e + 6/10 ∧
            p.x + (Renova.effDims f.fwidth f.fdepth p.rot).1 + 6/10 > e.px ∧
            p.y < e.py + Renova.effD e + 6/10 ∧
            p.y + (Renova.effDims f.fwidth f.fdepth p.rot).2 + 6/10 > e.py)) = false →
        Renova.scoreFurniturePosition p f length width doors existing =
          Renova.scoreBase p f length width doors +
            (if Renova.islandStrictClearance p f length width then 30 else -30)) ∧
    Renova.generateFurnitureLayout 5 (45/10) [] [] [] "kitchen" =
      [⟨"cabinets", 6/10, 6/10, 7/10, 7/10, 0⟩,
       ⟨"appliances", 6/10, 6/10, 7/10, 19/10, 0⟩,
       ⟨"island", 2, 1, 19/10, 11/10, 90⟩] ∧
    Renova.bestCandidate ⟨"island", 2, 1, 2, 37/10⟩ 5 (45/10) []
      [⟨"cabinets", 6/10, 6/10, 7/10, 7/10, 0⟩,
       ⟨"appliances", 6/10, 6/10, 7/10, 19/10, 0⟩] =
      (some ⟨19/10, 11/10, 90⟩, 140) ∧
    (130 : ℚ) ≤ 140 ∧
    1 ≤ (19/10 : ℚ) ∧ (19/10 : ℚ) + 1 ≤ 45/10 - 1 ∧
    1 ≤ (11/10 : ℚ) ∧ (11/10 : ℚ) + 2 ≤ 5 - 1 := by
  refine ⟨fun p f length width doors existing hty hb hcol =>
      Renova.island_score_structure p f length width doors existing hty hb hcol,
    Renova.layout_45_eq, Renova.best_island_45, by norm_num, by norm_num,
    by norm_num, by norm_num, by norm_num⟩

/-- Witness for C9 (amended): the winning island candidate of the 4.5m x
5.0m kitchen passes the gates and receives the +30 bonus. -/
theorem C9_witness :
    (⟨"island", 2, 1, 2, 37/10⟩ : Renova.FurnitureSpec).ftype = "island" ∧
    ¬ ((⟨19/10, 11/10, 90⟩ : Renova.FurniturePosition).x +
        (Renova.effDims 2 1 90).1 > 45/10 ∨
       (⟨19/10, 11/10, 90⟩ : Renova.FurniturePosition).y +
        (Renova.effDims 2 1 90).2 > 5) ∧
    Renova.scoreFurniturePosition ⟨19/10, 11/10, 90⟩ ⟨"island", 2, 1, 2, 37/10⟩
        5 (45/10) []
        [⟨"cabinets", 6/10, 6/10, 7/10, 7/10, 0⟩,
         ⟨"appliances", 6/10, 6/10, 7/10, 19/10, 0⟩] =
      Renova.scoreBase ⟨19/10, 11/10, 90⟩ ⟨"island", 2, 1, 2, 37/10⟩ 5 (45/10) [] +
        (if Renova.islandStrictClearance ⟨19/10, 11/10, 90⟩
            ⟨"island", 2, 1, 2, 37/10⟩ 5 (45/10) then 30 else -30) := by
  have hty : (⟨"island", 2, 1, 2, 37/10⟩ : Renova.FurnitureSpec).ftype = "island" := rfl
  have hb : ¬ ((⟨19/10, 11/10, 90⟩ : Renova.FurniturePosition).x +
      (Renova.effDims (⟨"island", 2, 1, 2, 37/10⟩ : Renova.FurnitureSpec).fwidth
        (⟨"island", 2, 1, 2, 37/10⟩ : Renova.FurnitureSpec).fdepth
        (⟨19/10, 11/10, 90⟩ : Renova.FurniturePosition).rot).1 > 45/10 ∨
      (⟨19/10, 11/10, 90⟩ : Renova.FurniturePosition).y +
      (Renova.effDims (⟨"island", 2, 1, 2, 37/10⟩ : Renova.FurnitureSpec).fwidth
        (⟨"island", 2, 1, 2, 37/10⟩ : Renova.FurnitureSpec).fdepth
        (⟨19/10, 11/10, 90⟩ : Renova.FurniturePosition).rot).2 > 5) := by
    with_unfolding_all decide
  have hcol : (([⟨"cabinets", 6/10, 6/10, 7/10, 7/10, 0⟩,
      ⟨"appliances", 6/10, 6/10, 7/10, 19/10, 0⟩] : List Renova.PlacedFurniture).any fun e =>
      decide ((⟨19/10, 11/10, 90⟩ : Renova.FurniturePosition).x <
          e.px + Renova.effW e + 6/10 ∧
        (⟨19/10, 11/10, 90⟩ : Renova.FurniturePosition).x +
          (Renova.effDims (⟨"island", 2, 1, 2, 37/10⟩ : Renova.FurnitureSpec).fwidth
            (⟨"island", 2, 1, 2, 37/10⟩ : Renova.FurnitureSpec).fdepth
            (⟨19/10, 11/10, 90⟩ : Renova.FurniturePosition).rot).1 + 6/10 > e.px ∧
        (⟨19/10, 11/10, 90⟩ : Renova.FurniturePosition).y <
          e.py + Renova.effD e + 6/10 ∧
        (⟨19/10, 11/10, 90⟩ : Renova.FurniturePosition).y +
          (Renova.effDims (⟨"island", 2, 1, 2, 37/10⟩ : Renova.FurnitureSpec).fwidth
            (⟨"island", 2, 1, 2, 37/10⟩ : Renova.FurnitureSpec).fdepth
            (⟨19/10, 11/10, 90⟩ : Renova.FurniturePosition).rot).2 + 6/10 > e.py)) =
      false := by
    with_unfolding_all decide
  exact ⟨hty, hb,
    C9_island_bonus_amended.1 ⟨19/10, 11/10, 90⟩ ⟨"island", 2, 1, 2, 37/10⟩
      5 (45/10) [] _ hty hb hcol⟩

namespace Renova

/-- The accumulator step of the best-match scan over detections in
`_validate_furniture_positions`. -/
def minStep (pl : PlacedFurniture) (ppm : ℚ) (acc : Option ℚ) (b : BoundingBox) :
    Option ℚ :=
  if furnitureTypesMatch b.className pl.ftype then
    let d := detectedDistSq b (pl.px * ppm) (pl.py * ppm)
    match acc with
    | none => some d
    | some m => if d < m then some d else some m
  else acc

theorem minDistSqTo_eq_foldl (pl : PlacedFurniture) (ppm : ℚ)
    (detected : List BoundingBox) :
    minDistSqTo pl ppm detected = detected.foldl (minStep pl ppm) none := rfl

theorem foldl_minStep_none (pl : PlacedFurniture) (ppm : ℚ) :
    ∀ (l : List BoundingBox) (acc : Option ℚ),
      l.foldl (minStep pl ppm) acc = none ↔
        acc = none ∧ ∀ b ∈ l, furnitureTypesMatch b.className pl.ftype = false := by
  intro l
  induction l with
  | nil => intro acc; simp
  | cons b t ih =>
    intro acc
    rw [List.foldl_cons, ih]
    by_cases hm : furnitureTypesMatch b.className pl.ftype = true
    · constructor
      · rintro ⟨hacc, -⟩
        exfalso
        cases acc with
        | none =>
          have hstep : minStep pl ppm none b =
              some (detectedDistSq b (pl.px * ppm) (pl.py * ppm)) := by
            simp [minStep, hm]
          rw [hstep] at hacc
          exact Option.noConfusion hacc
        | some m =>
          by_cases hd : detectedDistSq b (pl.px * ppm) (pl.py * ppm) < m
          · have hstep : minStep pl ppm (some m) b =
                some (detectedDistSq b (pl.px * ppm) (pl.py * ppm)) := by
              simp [minStep, hm, hd]
            rw [hstep] at hacc
            exact Option.noConfusion hacc
          · have hstep : minStep pl ppm (some m) b = some m := by
              simp [minStep, hm, hd]
            rw [hstep] at hacc
            exact Option.noConfusion hacc
      · rintro ⟨-, hall⟩
        exact absurd (hall b (List.mem_cons_self b t)) (by simp [hm])
    · have hstep : minStep pl ppm acc b = acc := by
        unfold minStep; rw [if_neg hm]
      rw [hstep]
      simp only [List.mem_cons]
      constructor
      · rintro ⟨hacc, hall⟩
        refine ⟨hacc, fun b' hb' => ?_⟩
        rcases hb' with rfl | hb'
        · exact Bool.not_eq_true _ |>.mp hm
        · exact hall b' hb'
      · rintro ⟨hacc, hall⟩
        exact ⟨hacc, fun b' hb' => hall b' (Or.inr hb')⟩

theorem foldl_minStep_some (pl : PlacedFurniture) (ppm : ℚ) :
    ∀ (l : List BoundingBox) (acc : Option ℚ) (s : ℚ),
      l.foldl (minStep pl ppm) acc = some s →
        (acc = some s ∨ ∃ b ∈ l, furnitureTypesMatch b.className pl.ftype = true ∧
          s = detectedDistSq b (pl.px * ppm) (pl.py * ppm)) ∧
        (∀ m, acc = some m → s ≤ m) ∧
        (∀ b ∈ l, furnitureTypesMatch b.className pl.ftype = true →
          s ≤ detectedDistSq b (pl.px * ppm) (pl.py * ppm)) := by
  intro l
  induction l with
  | nil =>
    intro acc s h
    rw [List.foldl_nil] at h
    subst h
    refine ⟨Or.inl rfl, fun m hm => ?_, fun b hb => absurd hb (List.not_mem_nil b)⟩
    cases hm
    exact le_refl s
  | cons b t ih =>
    intro acc s h
    rw [List.foldl_cons] at h
    obtain ⟨hsrc, hle, hrest⟩ := ih (minStep pl ppm acc b) s h
    by_cases hm : furnitureTypesMatch b.className pl.ftype = true
    · cases acc with
      | none =>
        have hstep : minStep pl ppm none b =
            some (detectedDistSq b (pl.px * ppm) (pl.py * ppm)) := by
          simp [minStep, hm]
        rw [hstep] at hsrc hle
        refine ⟨?_, fun m hm' => Option.noConfusion hm', fun b' hb' hm' => ?_⟩
        · rcases hsrc with hs | hs
          · have hds : detectedDistSq b (pl.px * ppm) (pl.py * ppm) = s :=
              Option.some.inj hs
            exact Or.inr ⟨b, List.mem_cons_self b t, hm, hds.symm⟩
          · obtain ⟨b', hb', hm', hseq⟩ := hs
            exact Or.inr ⟨b', List.mem_cons_of_mem b hb', hm', hseq⟩
        · rcases List.mem_cons.mp hb' with rfl | hb'
          · exact hle _ rfl
          · exact hrest b' hb' hm'
      | some m =>
        by_cases hd : detectedDistSq b (pl.px * ppm) (pl.py * ppm) < m
        · have hstep : minStep pl ppm (some m) b =
              some (detectedDistSq b (pl.px * ppm) (pl.py * ppm)) := by
            simp [minStep, hm, hd]
          rw [hstep] at hsrc hle
          have hsd : s ≤ detectedDistSq b (pl.px * ppm) (pl.py * ppm) := hle _ rfl
          refine ⟨?_, fun m' hm' => ?_, fun b' hb' hm' => ?_⟩
          · rcases hsrc with hs | hs
            · have hds : detectedDistSq b (pl.px * ppm) (pl.py * ppm) = s :=
                Option.some.inj hs
              exact Or.inr ⟨b, List.mem_cons_self b t, hm, hds.symm⟩
            · obtain ⟨b', hb', hmm, hseq⟩ := hs
              exact Or.inr ⟨b', List.mem_cons_of_mem b hb', hmm, hseq⟩
          · cases hm'
            exact le_trans hsd (le_of_lt hd)
          · rcases List.mem_cons.mp hb' with rfl | hb'
            · exact hsd
            · exact hrest b' hb' hm'
        · have hstep : minStep pl ppm (some m) b = some m := by
            simp [minStep, hm, hd]
          rw [hstep] at hsrc hle
          have hsm : s ≤ m := hle _ rfl
          refine ⟨?_, fun m' hm' => ?_, fun b' hb' hm' => ?_⟩
          · rcases hsrc with hs | hs
            · exact Or.inl hs
            · obtain ⟨b', hb', hmm, hseq⟩ := hs
              exact Or.inr ⟨b', List.mem_cons_of_mem b hb', hmm, hseq⟩
          · cases hm'
            exact hsm
          · rcases List.mem_cons.mp hb' with rfl | hb'
            · exact le_trans hsm (le_of_not_lt hd)
            · exact hrest b' hb' hm'
    · have hstep : minStep pl ppm acc b = acc := by
        unfold minStep; rw [if_neg hm]
      rw [hstep] at hsrc hle
      refine ⟨?_, hle, fun b' hb' hm' => ?_⟩
      · rcases hsrc with hs | hs
        · exact Or.inl hs
        · obtain ⟨b', hb', hmm, hseq⟩ := hs
          exact Or.inr ⟨b', List.mem_cons_of_mem b hb', hmm, hseq⟩
      · rcases List.mem_cons.mp hb' with rfl | hb'
        · exact absurd hm' hm
        · exact hrest b' hb' hm'

/-- `best_match is None` exactly when no detection's type matches. -/
theorem minDistSqTo_none_iff (pl : PlacedFurniture) (ppm : ℚ)
    (detected : List BoundingBox) :
    minDistSqTo pl ppm detected = none ↔
      ∀ b ∈ detected, furnitureTypesMatch b.className pl.ftype = false := by
  rw [minDistSqTo_eq_foldl, foldl_minStep_none]
  simp

/-- The matched squared distance is attained by a same-type detection and
is minimal among them. -/
theorem minDistSqTo_some_spec (pl : PlacedFurniture) (ppm : ℚ)
    (detected : List BoundingBox) (s : ℚ)
    (h : minDistSqTo pl ppm detected = some s) :
    (∃ b ∈ detected, furnitureTypesMatch b.className pl.ftype = true ∧
      s = detectedDistSq b (pl.px * ppm) (pl.py * ppm)) ∧
    (∀ b ∈ detected, furnitureTypesMatch b.className pl.ftype = true →
      s ≤ detectedDistSq b (pl.px * ppm) (pl.py * ppm)) := by
  rw [minDistSqTo_eq_foldl] at h
  obtain ⟨hsrc, -, hrest⟩ := foldl_minStep_some pl ppm detected none s h
  rcases hsrc with hs | hs
  · exact Option.noConfusion hs
  · exact ⟨hs, hrest⟩

/-- Matched items score `max(0, 1 - dist / (0.3 * ppm))`. -/
theorem positionScore_some (pl : PlacedFurniture) (ppm : ℚ)
    (detected : List BoundingBox) (s : ℚ)
    (h : minDistSqTo pl ppm detected = some s) :
    positionScore ppm detected pl =
      max 0 (1 - Real.sqrt (s : ℝ) / ((3/10 * ppm : ℚ) : ℝ)) := by
  unfold positionScore
  rw [h]

/-- Unmatched items score the fixed partial 0.5. -/
theorem positionScore_none (pl : PlacedFurniture) (ppm : ℚ)
    (detected : List BoundingBox)
    (h : minDistSqTo pl ppm detected = none) :
    positionScore ppm detected pl = 1/2 := by
  unfold positionScore
  rw [h]

end Renova

/-! ## Claim C8 -/

/-- C8 counterexample: the code measures the pixel distance from the
planned position's origin (`position['x'] * ppm`), not from the planned
item's centre.  With a sofa planned at (0, 0) with a 2.0m x 1.0m
footprint, pixels_per_meter = 100, and one detected sofa box at (90, 40)
of size 20 x 20 — whose centre (100, 50) coincides exactly with the
planned centre in pixels — the code's position score is 0 while the
claim's centre-based reading gives 1. -/
theorem C8_counterexample :
    Renova.validateFurniturePositions [⟨90, 40, 20, 20, 9/10, "sofa"⟩]
        [⟨"sofa", 2, 1, 0, 0, 0⟩] 100 = 0 ∧
    Renova.validateFurniturePositionsCenterRef [⟨90, 40, 20, 20, 9/10, "sofa"⟩]
        [⟨"sofa", 2, 1, 0, 0, 0⟩] 100 = 1 ∧
    (0 : ℝ) ≠ 1 := by
  have hmatch : Renova.furnitureTypesMatch "sofa" "sofa" = true := by decide
  have hmin : Renova.minDistSqTo ⟨"sofa", 2, 1, 0, 0, 0⟩ 100
      [⟨90, 40, 20, 20, 9/10, "sofa"⟩] = some 12500 := by
    rw [Renova.minDistSqTo_eq_foldl, List.foldl_cons, List.foldl_nil]
    have hstep : Renova.minStep ⟨"sofa", 2, 1, 0, 0, 0⟩ 100 none
        ⟨90, 40, 20, 20, 9/10, "sofa"⟩ =
        some (Renova.detectedDistSq ⟨90, 40, 20, 20, 9/10, "sofa"⟩
          ((0 : ℚ) * 100) ((0 : ℚ) * 100)) := by
      simp [Renova.minStep, hmatch]
    rw [hstep]
    norm_num [Renova.detectedDistSq]
  have hscore : Renova.positionScore 100 [⟨90, 40, 20, 20, 9/10, "sofa"⟩]
      ⟨"sofa", 2, 1, 0, 0, 0⟩ = 0 := by
    rw [Renova.positionScore_some _ _ _ _ hmin]
    have h30 : ((3/10 * 100 : ℚ) : ℝ) = 30 := by norm_num
    have h125 : ((12500 : ℚ) : ℝ) = 12500 := by norm_num
    rw [h30, h125]
    have hsqrt : (30 : ℝ) ≤ Real.sqrt 12500 := by
      nlinarith [Real.sq_sqrt (show (0:ℝ) ≤ 12500 by norm_num),
        Real.sqrt_nonneg (12500 : ℝ)]
    have hle : 1 - Real.sqrt 12500 / 30 ≤ 0 := by
      rw [sub_nonpos, le_div_iff₀ (show (0:ℝ) < 30 by norm_num)]
      linarith
    exact max_eq_left hle
  have hminC : Renova.minDistSqToCenterRef ⟨"sofa", 2, 1, 0, 0, 0⟩ 100
      [⟨90, 40, 20, 20, 9/10, "sofa"⟩] = some 0 := by
    norm_num [Renova.minDistSqToCenterRef, hmatch, Renova.detectedDistSq,
      Renova.effW, Renova.effD, Renova.effDims]
  have hscoreC : Renova.positionScoreCenterRef 100 [⟨90, 40, 20, 20, 9/10, "sofa"⟩]
      ⟨"sofa", 2, 1, 0, 0, 0⟩ = 1 := by
    unfold Renova.positionScoreCenterRef
    rw [hminC]
    show max 0 (1 - Real.sqrt ((0 : ℚ) : ℝ) / ((3/10 * 100 : ℚ) : ℝ)) = 1
    rw [Rat.cast_zero, Real.sqrt_zero, zero_div, sub_zero]
    exact max_eq_right zero_le_one
  refine ⟨?_, ?_, by norm_num⟩
  · simp [Renova.validateFurniturePositions, hscore]
  · simp [Renova.validateFurniturePositionsCenterRef, hscoreC]

/-- C8 (amended): for each planned item, the matcher scans the detections
and keeps the smallest squared pixel distance to a same-type detection's
centre, measured from `(planned.x * ppm, planned.y * ppm)` — the planned
position's origin, not its centre; a matched item scores
`max(0, 1 - distance / (0.3 * ppm))` on that distance and an item with no
same-type detection scores the fixed partial 0.5. -/
theorem C8_matching_amended :
    (∀ (pl : Renova.PlacedFurniture) (ppm : ℚ)
        (detected : List Renova.BoundingBox),
      Renova.minDistSqTo pl ppm detected = none ↔
        ∀ b ∈ detected,
          Renova.furnitureTypesMatch b.className pl.ftype = false) ∧
    (∀ (pl : Renova.PlacedFurniture) (ppm : ℚ)
        (detected : List Renova.BoundingBox) (s : ℚ),
      Renova.minDistSqTo pl ppm detected = some s →
        (∃ b ∈ detected,
          Renova.furnitureTypesMatch b.className pl.ftype = true ∧
            s = Renova.detectedDistSq b (pl.px * ppm) (pl.py * ppm)) ∧
        (∀ b ∈ detected,
          Renova.furnitureTypesMatch b.className pl.ftype = true →
            s ≤ Renova.detectedDistSq b (pl.px * ppm) (pl.py * ppm))) ∧
    (∀ (pl : Renova.PlacedFurniture) (ppm : ℚ)
        (detected : List Renova.BoundingBox) (s : ℚ),
      Renova.minDistSqTo pl ppm detected = some s →
        Renova.positionScore ppm detected pl =
          max 0 (1 - Real.sqrt (s : ℝ) / ((3/10 * ppm : ℚ) : ℝ))) ∧
    (∀ (pl : Renova.PlacedFurniture) (ppm : ℚ)
        (detected : List Renova.BoundingBox),
      Renova.minDistSqTo pl ppm detected = none →
        Renova.positionScore ppm detected pl = 1/2) :=
  ⟨fun pl ppm detected => Renova.minDistSqTo_none_iff pl ppm detected,
   fun pl ppm detected s h => Renova.minDistSqTo_some_spec pl ppm detected s h,
   fun pl ppm detected s h => Renova.positionScore_some pl ppm detected s h,
   fun pl ppm detected h => Renova.positionScore_none pl ppm detected h⟩

/-- Witness for C8 (amended): a planned bed with no same-type detection
in a list holding only a sofa box scores exactly 0.5. -/
theorem C8_witness :
    Renova.minDistSqTo ⟨"bed", 16/10, 2, 1, 1, 0⟩ 100
        [⟨0, 0, 20, 20, 9/10, "sofa"⟩] = none ∧
    Renova.positionScore 100 [⟨0, 0, 20, 20, 9/10, "sofa"⟩]
        ⟨"bed", 16/10, 2, 1, 1, 0⟩ = 1/2 := by
  have h : Renova.minDistSqTo ⟨"bed", 16/10, 2, 1, 1, 0⟩ 100
      [⟨0, 0, 20, 20, 9/10, "sofa"⟩] = none := by
    with_unfolding_all decide
  exact ⟨h, C8_matching_amended.2.2.2 ⟨"bed", 16/10, 2, 1, 1, 0⟩ 100
    [⟨0, 0, 20, 20, 9/10, "sofa"⟩] h⟩

namespace Renova

theorem list_sum_bounds_q : ∀ (l : List ℚ), (∀ x ∈ l, 0 ≤ x ∧ x ≤ 1) →
    0 ≤ l.sum ∧ l.sum ≤ (l.length : ℚ) := by
  intro l
  induction l with
  | nil => intro _; simp
  | cons a t ih =>
    intro h
    obtain ⟨ha1, ha2⟩ := h a (List.mem_cons_self a t)
    obtain ⟨h1, h2⟩ := ih (fun x hx => h x (List.mem_cons_of_mem a hx))
    simp only [List.sum_cons, List.length_cons]
    push_cast
    constructor <;> linarith

theorem list_sum_bounds_r : ∀ (l : List ℝ), (∀ x ∈ l, 0 ≤ x ∧ x ≤ 1) →
    0 ≤ l.sum ∧ l.sum ≤ (l.length : ℝ) := by
  intro l
  induction l with
  | nil => intro _; simp
  | cons a t ih =>
    intro h
    obtain ⟨ha1, ha2⟩ := h a (List.mem_cons_self a t)
    obtain ⟨h1, h2⟩ := ih (fun x hx => h x (List.mem_cons_of_mem a hx))
    simp only [List.sum_cons, List.length_cons]
    push_cast
    constructor <;> linarith

theorem clamp01_mem (x : ℚ) : 0 ≤ min 1 (max 0 x) ∧ min 1 (max 0 x) ≤ 1 :=
  ⟨le_min zero_le_one (le_max_left 0 x), min_le_left 1 _⟩

theorem scaleScoreOf_mem (ppm : ℚ) (b : BoundingBox) (q : ℚ)
    (h : scaleScoreOf ppm b = some q) : 0 ≤ q ∧ q ≤ 1 := by
  unfold scaleScoreOf at h
  cases hsd : scaleStandardDims b.className with
  | none => rw [hsd] at h; exact absurd h (by simp)
  | some ed =>
    rw [hsd] at h
    simp only [Option.some.injEq] at h
    rw [← h]
    exact clamp01_mem _

theorem validateFurnitureScales_mem (detected : List BoundingBox) (ppm : ℚ) :
    0 ≤ validateFurnitureScales detected ppm ∧
      validateFurnitureScales detected ppm ≤ 1 := by
  simp only [validateFurnitureScales]
  split_ifs with he
  · norm_num
  · have hb : ∀ x ∈ detected.filterMap (scaleScoreOf ppm), 0 ≤ x ∧ x ≤ 1 := by
      intro x hx
      rw [List.mem_filterMap] at hx
      obtain ⟨b, -, hbx⟩ := hx
      exact scaleScoreOf_mem ppm b x hbx
    obtain ⟨h1, h2⟩ := list_sum_bounds_q _ hb
    have hne : detected.filterMap (scaleScoreOf ppm) ≠ [] := by
      intro hnil
      rw [hnil] at he
      exact he rfl
    have hlen : (0 : ℚ) < ((detected.filterMap (scaleScoreOf ppm)).length : ℚ) := by
      exact_mod_cast List.length_pos.mpr hne
    exact ⟨div_nonneg h1 (le_of_lt hlen), (div_le_one hlen).mpr h2⟩

theorem positionScore_mem (ppm : ℚ) (detected : List BoundingBox)
    (pl : PlacedFurniture) (h : 0 < ppm) :
    0 ≤ positionScore ppm detected pl ∧ positionScore ppm detected pl ≤ 1 := by
  unfold positionScore
  cases hmin : minDistSqTo pl ppm detected with
  | none =>
    show (0 : ℝ) ≤ 1/2 ∧ (1/2 : ℝ) ≤ 1
    norm_num
  | some s =>
    show 0 ≤ max 0 (1 - Real.sqrt (s : ℝ) / ((3/10 * ppm : ℚ) : ℝ)) ∧
      max 0 (1 - Real.sqrt (s : ℝ) / ((3/10 * ppm : ℚ) : ℝ)) ≤ 1
    refine ⟨le_max_left 0 _, ?_⟩
    rw [max_le_iff]
    refine ⟨zero_le_one, ?_⟩
    have h1 : (0 : ℝ) < ((3/10 * ppm : ℚ) : ℝ) := by
      have : (0 : ℚ) < 3/10 * ppm := by positivity
      exact_mod_cast this
    have h2 : (0 : ℝ) ≤ Real.sqrt (s : ℝ) := Real.sqrt_nonneg _
    have h3 : 0 ≤ Real.sqrt (s : ℝ) / ((3/10 * ppm : ℚ) : ℝ) :=
      div_nonneg h2 (le_of_lt h1)
    linarith

theorem validateFurniturePositions_mem (detected : List BoundingBox)
    (planned : List PlacedFurniture) (ppm : ℚ) (h : 0 < ppm) :
    0 ≤ validateFurniturePositions detected planned ppm ∧
      validateFurniturePositions detected planned ppm ≤ 1 := by
  unfold validateFurniturePositions
  split_ifs with he
  · norm_num
  · have hb : ∀ x ∈ planned.map (positionScore ppm detected), 0 ≤ x ∧ x ≤ 1 := by
      intro x hx
      rw [List.mem_map] at hx
      obtain ⟨p, -, rfl⟩ := hx
      exact positionScore_mem ppm detected p h
    obtain ⟨h1, h2⟩ := list_sum_bounds_r _ hb
    have hne : planned ≠ [] := by
      intro hnil
      subst hnil
      exact he rfl
    have hlen : (0 : ℝ) < (planned.length : ℝ) := by
      exact_mod_cast List.length_pos.mpr hne
    rw [List.length_map] at h2
    exact ⟨div_nonneg h1 (le_of_lt hlen), (div_le_one hlen).mpr h2⟩

theorem checkFurnitureOverlaps_mem (detected : List BoundingBox) :
    0 ≤ checkFurnitureOverlaps detected ∧ checkFurnitureOverlaps detected ≤ 1 := by
  simp only [checkFurnitureOverlaps]
  split_ifs with h
  · norm_num
  · have hk : ((pairsAfter detected).filter
        (fun p => decide (overlapViolating p))).length ≤ (pairsAfter detected).length :=
      List.length_filter_le _ _
    rcases Nat.eq_zero_or_pos (pairsAfter detected).length with hn | hn
    · have hk0 : ((pairsAfter detected).filter
          (fun p => decide (overlapViolating p))).length = 0 :=
        Nat.le_antisymm (hn ▸ hk) (Nat.zero_le _)
      rw [hk0, hn]
      norm_num
    · have hnq : (0 : ℚ) < ((pairsAfter detected).length : ℚ) := by exact_mod_cast hn
      have hd1 : (0 : ℚ) ≤ (((pairsAfter detected).filter
          (fun p => decide (overlapViolating p))).length : ℚ) /
          ((pairsAfter detected).length : ℚ) :=
        div_nonneg (Nat.cast_nonneg _) (Nat.cast_nonneg _)
      have hd2 : (((pairsAfter detected).filter
          (fun p => decide (overlapViolating p))).length : ℚ) /
          ((pairsAfter detected).length : ℚ) ≤ 1 :=
        (div_le_one hnq).mpr (by exact_mod_cast hk)
      constructor <;> linarith

theorem checkAccessibilityPaths_mem (detected : List BoundingBox)
    (rwPx rlPx : ℚ) :
    0 ≤ checkAccessibilityPaths detected rwPx rlPx ∧
      checkAccessibilityPaths detected rwPx rlPx ≤ 1 := by
  simp only [checkAccessibilityPaths]
  split_ifs <;> norm_num

theorem checkSpatialConstraints_mem (detected : List BoundingBox)
    (rules : List String) :
    0 ≤ checkSpatialConstraints detected rules ∧
      checkSpatialConstraints detected rules ≤ 1 := by
  unfold checkSpatialConstraints
  split_ifs with h
  · norm_num
  · refine ⟨le_max_left 0 _, ?_⟩
    rw [max_le_iff]
    refine ⟨zero_le_one, ?_⟩
    have h0 : (0 : ℚ) ≤ (constraintViolationCount detected rules : ℚ) /
        ((rules.length : ℚ)) :=
      div_nonneg (Nat.cast_nonneg _) (Nat.cast_nonneg _)
    linarith

theorem validateLayoutCompliance_mem (detected : List BoundingBox)
    (constraints : Option (List String)) (rwPx rlPx : ℚ) :
    0 ≤ validateLayoutCompliance detected constraints rwPx rlPx ∧
      validateLayoutCompliance detected constraints rwPx rlPx ≤ 1 := by
  obtain ⟨ho1, ho2⟩ := checkFurnitureOverlaps_mem detected
  obtain ⟨ha1, ha2⟩ := checkAccessibilityPaths_mem detected rwPx rlPx
  cases constraints with
  | none =>
    simp only [validateLayoutCompliance, List.cons_append, List.nil_append,
      List.sum_cons, List.sum_nil, List.length_cons, List.length_nil]
    norm_num
    constructor
    · apply div_nonneg (by linarith)
      norm_num
    · rw [div_le_one (by norm_num : (0:ℚ) < 2)]
      linarith
  | some rules =>
    obtain ⟨hc1, hc2⟩ := checkSpatialConstraints_mem detected rules
    simp only [validateLayoutCompliance, List.cons_append, List.nil_append,
      List.sum_cons, List.sum_nil, List.length_cons, List.length_nil]
    norm_num
    constructor
    · apply div_nonneg (by linarith)
      norm_num
    · rw [div_le_one (by norm_num : (0:ℚ) < 3)]
      linarith

/-- The non-degraded branch of `validate_generated_image`: the overall
score is the 0.4/0.3/0.3 aggregate of the three sub-scores at
`pixels_per_meter = min(imgW/roomW, imgH/roomL) * 0.6`. -/
theorem validateGeneratedImage_overall (imgWidth imgHeight : ℕ)
    (roomWidth roomLength : Option ℚ) (planned : List PlacedFurniture)
    (constraints : Option (List String)) (detected : List BoundingBox)
    (h : ¬(roomWidth.getD 4 = 0 ∨ roomLength.getD 5 = 0)) :
    (validateGeneratedImage imgWidth imgHeight roomWidth roomLength planned
        constraints detected).overallScore =
      (4/10 : ℝ) * validateFurniturePositions detected planned
          (min ((imgWidth : ℚ) / roomWidth.getD 4)
            ((imgHeight : ℚ) / roomLength.getD 5) * (6/10)) +
      (3/10) * ((validateFurnitureScales detected
          (min ((imgWidth : ℚ) / roomWidth.getD 4)
            ((imgHeight : ℚ) / roomLength.getD 5) * (6/10)) : ℚ) : ℝ) +
      (3/10) * ((validateLayoutCompliance detected constraints
          (roomWidth.getD 4 *
            (min ((imgWidth : ℚ) / roomWidth.getD 4)
              ((imgHeight : ℚ) / roomLength.getD 5) * (6/10)))
          (roomLength.getD 5 *
            (min ((imgWidth : ℚ) / roomWidth.getD 4)
              ((imgHeight : ℚ) / roomLength.getD 5) * (6/10))) : ℚ) : ℝ) := by
  simp only [validateGeneratedImage]
  rw [if_neg h]

/-- The degraded branch: a zero room dimension (the division-by-zero path
of `_extract_room_perspective`) yields the fixed 0.5 report. -/
theorem validateGeneratedImage_degraded (imgWidth imgHeight : ℕ)
    (roomWidth roomLength : Option ℚ) (planned : List PlacedFurniture)
    (constraints : Option (List String)) (detected : List BoundingBox)
    (h : roomWidth.getD 4 = 0 ∨ roomLength.getD 5 = 0) :
    validateGeneratedImage imgWidth imgHeight roomWidth roomLength planned
        constraints detected = degradedReport := by
  simp only [validateGeneratedImage]
  rw [if_pos h]

end Renova

/-! ## Claim C5 -/

/-- C5: `validate_generated_image` always returns a report (the embedding
is a total function); for positive image dimensions and nonnegative
effective room dimensions (§3 requires positive dimensions; missing ones
take the `.get` defaults 4.0 and 5.0) the overall score lies in [0, 1];
and when the scale reference cannot be computed (a zero room dimension,
the division-by-zero failure of `_extract_room_perspective`) it returns
the degraded report, whose four scores are all 0.5 and whose single
violation notes the limitation. -/
theorem C5_validation_bounds (imgWidth imgHeight : ℕ)
    (roomWidth roomLength : Option ℚ) (planned : List Renova.PlacedFurniture)
    (constraints : Option (List String)) (detected : List Renova.BoundingBox)
    (hW : 0 < imgWidth) (hH : 0 < imgHeight)
    (hrw : 0 ≤ roomWidth.getD 4) (hrl : 0 ≤ roomLength.getD 5) :
    (0 ≤ (Renova.validateGeneratedImage imgWidth imgHeight roomWidth roomLength
        planned constraints detected).overallScore ∧
      (Renova.validateGeneratedImage imgWidth imgHeight roomWidth roomLength
        planned constraints detected).overallScore ≤ 1) ∧
    (roomWidth.getD 4 = 0 ∨ roomLength.getD 5 = 0 →
      Renova.validateGeneratedImage imgWidth imgHeight roomWidth roomLength
        planned constraints detected = Renova.degradedReport) ∧
    Renova.degradedReport.overallScore = 1/2 ∧
    Renova.degradedReport.spatialAccuracy = 1/2 ∧
    Renova.degradedReport.scaleConsistency = 1/2 ∧
    Renova.degradedReport.layoutCompliance = 1/2 ∧
    Renova.degradedReport.violations =
      ["Unable to establish spatial reference in image"] := by
  refine ⟨?_, fun hdeg => Renova.validateGeneratedImage_degraded imgWidth imgHeight
    roomWidth roomLength planned constraints detected hdeg, rfl, rfl, rfl, rfl, rfl⟩
  by_cases hdeg : roomWidth.getD 4 = 0 ∨ roomLength.getD 5 = 0
  · rw [Renova.validateGeneratedImage_degraded imgWidth imgHeight roomWidth
      roomLength planned constraints detected hdeg]
    constructor <;> norm_num [Renova.degradedReport]
  · obtain ⟨hw0, hl0⟩ := not_or.mp hdeg
    have hrwpos : 0 < roomWidth.getD 4 := lt_of_le_of_ne hrw (Ne.symm hw0)
    have hrlpos : 0 < roomLength.getD 5 := lt_of_le_of_ne hrl (Ne.symm hl0)
    have hppm : 0 < min ((imgWidth : ℚ) / roomWidth.getD 4)
        ((imgHeight : ℚ) / roomLength.getD 5) * (6/10) := by
      have h1 : (0 : ℚ) < (imgWidth : ℚ) / roomWidth.getD 4 :=
        div_pos (by exact_mod_cast hW) hrwpos
      have h2 : (0 : ℚ) < (imgHeight : ℚ) / roomLength.getD 5 :=
        div_pos (by exact_mod_cast hH) hrlpos
      have h3 := lt_min h1 h2
      nlinarith
    obtain ⟨hp1, hp2⟩ := Renova.validateFurniturePositions_mem detected planned _ hppm
    obtain ⟨hs1, hs2⟩ := Renova.validateFurnitureScales_mem detected
      (min ((imgWidth : ℚ) / roomWidth.getD 4)
        ((imgHeight : ℚ) / roomLength.getD 5) * (6/10))
    obtain ⟨hl1, hl2⟩ := Renova.validateLayoutCompliance_mem detected constraints
      (roomWidth.getD 4 * (min ((imgWidth : ℚ) / roomWidth.getD 4)
        ((imgHeight : ℚ) / roomLength.getD 5) * (6/10)))
      (roomLength.getD 5 * (min ((imgWidth : ℚ) / roomWidth.getD 4)
        ((imgHeight : ℚ) / roomLength.getD 5) * (6/10)))
    rw [Renova.validateGeneratedImage_overall imgWidth imgHeight roomWidth
      roomLength planned constraints detected hdeg]
    have hs1r : (0 : ℝ) ≤ ((Renova.validateFurnitureScales detected
        (min ((imgWidth : ℚ) / roomWidth.getD 4)
          ((imgHeight : ℚ) / roomLength.getD 5) * (6/10)) : ℚ) : ℝ) := by
      exact_mod_cast hs1
    have hs2r : ((Renova.validateFurnitureScales detected
        (min ((imgWidth : ℚ) / roomWidth.getD 4)
          ((imgHeight : ℚ) / roomLength.getD 5) * (6/10)) : ℚ) : ℝ) ≤ 1 := by
      exact_mod_cast hs2
    have hl1r : (0 : ℝ) ≤ ((Renova.validateLayoutCompliance detected constraints
        (roomWidth.getD 4 * (min ((imgWidth : ℚ) / roomWidth.getD 4)
          ((imgHeight : ℚ) / roomLength.getD 5) * (6/10)))
        (roomLength.getD 5 * (min ((imgWidth : ℚ) / roomWidth.getD 4)
          ((imgHeight : ℚ) / roomLength.getD 5) * (6/10))) : ℚ) : ℝ) := by
      exact_mod_cast hl1
    have hl2r : ((Renova.validateLayoutCompliance detected constraints
        (roomWidth.getD 4 * (min ((imgWidth : ℚ) / roomWidth.getD 4)
          ((imgHeight : ℚ) / roomLength.getD 5) * (6/10)))
        (roomLength.getD 5 * (min ((imgWidth : ℚ) / roomWidth.getD 4)
          ((imgHeight : ℚ) / roomLength.getD 5) * (6/10))) : ℚ) : ℝ) ≤ 1 := by
      exact_mod_cast hl2
    constructor <;> linarith

/-- Witness for C5: a 512 x 512 image of an empty 4.0m x 5.0m room. -/
theorem C5_witness :
    0 < 512 ∧ (0 : ℚ) ≤ (some (4 : ℚ)).getD 4 ∧
    (0 ≤ (Renova.validateGeneratedImage 512 512 (some 4) (some 5) [] none
        []).overallScore ∧
      (Renova.validateGeneratedImage 512 512 (some 4) (some 5) [] none
        []).overallScore ≤ 1) := by
  refine ⟨by norm_num, by norm_num [Option.getD_some], ?_⟩
  exact (C5_validation_bounds 512 512 (some 4) (some 5) [] none []
    (by norm_num) (by norm_num) (by norm_num [Option.getD_some])
    (by norm_num [Option.getD_some])).1
